import Mathlib

/-!
Verification development for the BLOCON desktop launcher core.

The development shallowly embeds the two Rust source files of the launcher
(`src/app/desktop/src-tauri/src/config.rs` and `main.rs`):

* Rust `String` / `&str` values are modelled as `List Char` (`Str`), and the
  string functions used by the code (`trim`, `trim_matches`, `splitn(2, _)`,
  `lines`, `starts_with`, `contains`) are translated as executable functions
  on `List Char`.  Rust's `trim` removes the full Unicode White_Space set,
  which `isWs` models exactly.
* `HashMap<String, String>` is modelled as the function map `Str → Option Str`
  whose `insert` overwrites (exactly as `HashMap::insert` does).
* `f32` values are modelled exactly as rational numbers written as an integer
  numerator over a positive natural denominator (`Frac`), with a conversion
  `toF32` that performs IEEE-754 round-to-nearest-even onto the binary32 grid
  (24-bit significand, exponent range down to subnormals at 2^-149, overflow
  to infinity at 2^128).  The fuelled helpers (`log2fuel`, `binadeNegF`) are
  given fuel 4200, which covers every value whose numerator and denominator
  have fewer than 4200 bits; beyond that the mantissa may be mis-rounded, but
  every theorem below only evaluates them on small concrete inputs.
* `serde_json` serialization of the flat `SharePointConfig` struct is modelled
  at the JSON-object level (`JObj`): `serde_json::to_vec` emits one object with
  one member per field in declaration order, and the derived `Deserialize`
  looks fields up by name and range-checks `u32` values.  The byte layer is a
  faithful envelope of this object layer for the round-trip claims.
* The filesystem is modelled as an `FsState` record giving, for each of the
  three files `load_config` can touch (the blob `config.dat`, the mirror
  `.env`, and a `.env` in the current working directory), whether the file
  exists and what reading it yields.  Writes in `save_config` are modelled as
  succeeding, and the platform-dependent decrypt+decode step is a parameter
  `unsealDecode` of `loadConfig` (instantiated with the non-Windows
  pass-through composed with JSON decoding as `jsonUnseal`).
* The health probe's socket I/O is abstracted to a `ProbeOutcome` describing
  what the single connect/write/read attempt produced; the pure
  classification of the read bytes is translated exactly.
* The supervisor state machine (ownership flag, child handle, close-requested
  handler, poll loop, setup timeout handling) is modelled as pure transition
  functions; the fixed-interval poll loop is abstracted to the finite list of
  probe results the 30 s budget admits.
-/

/- ===== characters and strings ===== -/

abbrev Str := List Char

def nlChar : Char := Char.ofNat 10

def crChar : Char := Char.ofNat 13

def tabChar : Char := Char.ofNat 9

def dqChar : Char := Char.ofNat 34

def sqChar : Char := Char.ofNat 39

/-- Rust `char::is_whitespace`, used by `str::trim`: the Unicode White_Space
set, i.e. U+0009..U+000D, U+0020, U+0085, U+00A0, U+1680, U+2000..U+200A,
U+2028, U+2029, U+202F, U+205F and U+3000. -/
def isWs (c : Char) : Bool :=
  (9 ≤ c.toNat && c.toNat ≤ 13) || c.toNat = 32 || c.toNat = 133 || c.toNat = 160 ||
  c.toNat = 5760 || (8192 ≤ c.toNat && c.toNat ≤ 8202) || c.toNat = 8232 ||
  c.toNat = 8233 || c.toNat = 8239 || c.toNat = 8287 || c.toNat = 12288

def trimLeftP (p : Char → Bool) : Str → Str
  | [] => []
  | c :: cs => if p c then trimLeftP p cs else c :: cs

def trimRightP (p : Char → Bool) (s : Str) : Str := (trimLeftP p s.reverse).reverse

/-- Rust `str::trim`. -/
def trimWs (s : Str) : Str := trimLeftP isWs (trimRightP isWs s)

/-- Rust `str::trim_matches(c)`: removes every leading and trailing `c`. -/
def trimMatchesC (c : Char) (s : Str) : Str :=
  trimLeftP (fun d => d = c) (trimRightP (fun d => d = c) s)

/-- The value clean-up of `parse_env`: `.trim_matches(dquote).trim_matches(squote)`. -/
def stripQuotes (s : Str) : Str := trimMatchesC sqChar (trimMatchesC dqChar s)

/-- Rust `str::splitn(2, c)`: the part before the first `c`, and, when `c`
occurs, the rest after it. -/
def splitFirstAt (c : Char) : Str → Str × Option Str
  | [] => ([], none)
  | d :: ds =>
    if d = c then ([], some ds)
    else
      let r := splitFirstAt c ds
      (d :: r.1, r.2)

def splitOnC (c : Char) : Str → List Str
  | [] => [[]]
  | d :: ds =>
    match splitOnC c ds with
    | [] => [[d]]
    | h :: t => if d = c then [] :: h :: t else (d :: h) :: t

def stripCrEnd (s : Str) : Str :=
  match s.getLast? with
  | some c => if c = crChar then s.dropLast else s
  | none => s

/-- Rust `str::lines`: split on LF, drop a final empty segment produced by a
trailing newline, and strip one trailing CR from each line. -/
def rustLines (s : Str) : List Str :=
  if s = [] then []
  else
    let p := splitOnC nlChar s
    let p2 := if p.getLast? = some [] then p.dropLast else p
    p2.map stripCrEnd

/-- Rust `Vec::join("\n")` on a vector of lines. -/
def joinNl : List Str → Str
  | [] => []
  | [l] => l
  | l :: l2 :: ls => l ++ nlChar :: joinNl (l2 :: ls)

/- ===== parse_env (config.rs lines 277-297) ===== -/

def EnvMap : Type := Str → Option Str

def envEmpty : EnvMap := fun _ => none

def envInsert (k v : Str) (m : EnvMap) : EnvMap := fun k2 => if k2 = k then some v else m k2

/-- One iteration of the `parse_env` loop body. -/
def parseEnvLine (m : EnvMap) (raw : Str) : EnvMap :=
  let line := trimWs raw
  if line = [] then m
  else if line.headI = '#' then m
  else
    let parts := splitFirstAt '=' line
    if trimWs parts.1 = [] then m
    else
      let v0 := match parts.2 with
        | some v => v
        | none => []
      envInsert (trimWs parts.1) (stripQuotes (trimWs v0)) m

/-- `parse_env` from config.rs. -/
def parseEnv (s : Str) : EnvMap := (rustLines s).foldl parseEnvLine envEmpty

/- ===== the configuration entity (config.rs lines 9-84) ===== -/

structure SharePointConfig where
  user_name : Str
  tenant_id : Str
  client_id : Str
  client_secret : Str
  site_id : Str
  site_hostname : Str
  site_path : Str
  events_list_id : Str
  events_list_name : Str
  events_field_kind : Str
  events_field_ts : Str
  events_field_actor : Str
  events_field_version : Str
  events_field_payload : Str
  events_field_snapshot_file : Str
  snapshots_library_id : Str
  snapshots_library_name : Str
  events_snapshot_threshold_kb : Nat
  failures_list_id : Str
  failures_list_name : Str
  failures_field_component : Str
  failures_field_date : Str
  failures_field_type : Str
  components_list_id : Str
  components_list_name : Str
  components_field_id : Str
  components_field_name : Str
  components_field_subtype : Str
  components_field_type : Str
  components_field_insid : Str
  graph_base : Str
  graph_scope : Str
  timeout_s : Nat
deriving DecidableEq

/-- The `Default` impl of `SharePointConfig`. -/
def defaultConfig : SharePointConfig where
  user_name := []
  tenant_id := []
  client_id := []
  client_secret := []
  site_id := []
  site_hostname := "your-hostname-here.sharepoint.com".data
  site_path := "/sites/your-site-name".data
  events_list_id := []
  events_list_name := "eventsBLOCON".data
  events_field_kind := "kind".data
  events_field_ts := "timestamp".data
  events_field_actor := "actor".data
  events_field_version := "version".data
  events_field_payload := "payload".data
  events_field_snapshot_file := "snapshot_file".data
  snapshots_library_id := []
  snapshots_library_name := "snapshotsBLOCON".data
  events_snapshot_threshold_kb := 100
  failures_list_id := []
  failures_list_name := "KKS_Failures".data
  failures_field_component := "Component_ID".data
  failures_field_date := "failure_date".data
  failures_field_type := "type_failure".data
  components_list_id := []
  components_list_name := "Unit".data
  components_field_id := "kks".data
  components_field_name := "kks_name".data
  components_field_subtype := "Subtype_Text".data
  components_field_type := "Type_text".data
  components_field_insid := "insID".data
  graph_base := "https://graph.microsoft.com/v1.0".data
  graph_scope := "https://graph.microsoft.com/.default".data
  timeout_s := 30

/- ===== the mirror-file keys ===== -/

def kUSER_NAME : Str := "USER_NAME".data

def kSP_TENANT_ID : Str := "SP_TENANT_ID".data

def kSP_CLIENT_ID : Str := "SP_CLIENT_ID".data

def kSP_CLIENT_SECRET : Str := "SP_CLIENT_SECRET".data

def kSP_SITE_ID : Str := "SP_SITE_ID".data

def kSP_SITE_HOSTNAME : Str := "SP_SITE_HOSTNAME".data

def kSP_SITE_PATH : Str := "SP_SITE_PATH".data

def kSP_GRAPH_BASE : Str := "SP_GRAPH_BASE".data

def kSP_GRAPH_SCOPE : Str := "SP_GRAPH_SCOPE".data

def kSP_TIMEOUT_S : Str := "SP_TIMEOUT_S".data

def kSP_EVENTS_LIST_ID : Str := "SP_EVENTS_LIST_ID".data

def kSP_EVENTS_LIST_NAME : Str := "SP_EVENTS_LIST_NAME".data

def kSP_EVENTS_SNAPSHOT_THRESHOLD_KB : Str := "SP_EVENTS_SNAPSHOT_THRESHOLD_KB".data

def kSP_EVENTS_FIELD_KIND : Str := "SP_EVENTS_FIELD_KIND".data

def kSP_EVENTS_FIELD_TS : Str := "SP_EVENTS_FIELD_TS".data

def kSP_EVENTS_FIELD_ACTOR : Str := "SP_EVENTS_FIELD_ACTOR".data

def kSP_EVENTS_FIELD_VERSION : Str := "SP_EVENTS_FIELD_VERSION".data

def kSP_EVENTS_FIELD_PAYLOAD : Str := "SP_EVENTS_FIELD_PAYLOAD".data

def kSP_EVENTS_FIELD_SNAPSHOT_FILE : Str := "SP_EVENTS_FIELD_SNAPSHOT_FILE".data

def kSP_SNAPSHOTS_LIBRARY_ID : Str := "SP_SNAPSHOTS_LIBRARY_ID".data

def kSP_SNAPSHOTS_LIBRARY_NAME : Str := "SP_SNAPSHOTS_LIBRARY_NAME".data

def kSP_FAILURES_LIST_ID : Str := "SP_FAILURES_LIST_ID".data

def kSP_FAILURES_LIST_NAME : Str := "SP_FAILURES_LIST_NAME".data

def kSP_FAILURES_FIELD_COMPONENT : Str := "SP_FAILURES_FIELD_COMPONENT".data

def kSP_FAILURES_FIELD_DATE : Str := "SP_FAILURES_FIELD_DATE".data

def kSP_FAILURES_FIELD_TYPE : Str := "SP_FAILURES_FIELD_TYPE".data

def kSP_COMPONENTS_LIST_ID : Str := "SP_COMPONENTS_LIST_ID".data

def kSP_COMPONENTS_LIST_NAME : Str := "SP_COMPONENTS_LIST_NAME".data

def kSP_COMPONENTS_FIELD_ID : Str := "SP_COMPONENTS_FIELD_ID".data

def kSP_COMPONENTS_FIELD_NAME : Str := "SP_COMPONENTS_FIELD_NAME".data

def kSP_COMPONENTS_FIELD_SUBTYPE : Str := "SP_COMPONENTS_FIELD_SUBTYPE".data

def kSP_COMPONENTS_FIELD_TYPE : Str := "SP_COMPONENTS_FIELD_TYPE".data

def kSP_COMPONENTS_FIELD_INSID : Str := "SP_COMPONENTS_FIELD_INSID".data

def knownKeys : List Str := [kUSER_NAME, kSP_TENANT_ID, kSP_CLIENT_ID, kSP_CLIENT_SECRET,
  kSP_SITE_ID, kSP_SITE_HOSTNAME, kSP_SITE_PATH, kSP_GRAPH_BASE, kSP_GRAPH_SCOPE,
  kSP_TIMEOUT_S, kSP_EVENTS_LIST_ID, kSP_EVENTS_LIST_NAME, kSP_EVENTS_SNAPSHOT_THRESHOLD_KB,
  kSP_EVENTS_FIELD_KIND, kSP_EVENTS_FIELD_TS, kSP_EVENTS_FIELD_ACTOR, kSP_EVENTS_FIELD_VERSION,
  kSP_EVENTS_FIELD_PAYLOAD, kSP_EVENTS_FIELD_SNAPSHOT_FILE, kSP_SNAPSHOTS_LIBRARY_ID,
  kSP_SNAPSHOTS_LIBRARY_NAME, kSP_FAILURES_LIST_ID, kSP_FAILURES_LIST_NAME,
  kSP_FAILURES_FIELD_COMPONENT, kSP_FAILURES_FIELD_DATE, kSP_FAILURES_FIELD_TYPE,
  kSP_COMPONENTS_LIST_ID, kSP_COMPONENTS_LIST_NAME, kSP_COMPONENTS_FIELD_ID,
  kSP_COMPONENTS_FIELD_NAME, kSP_COMPONENTS_FIELD_SUBTYPE, kSP_COMPONENTS_FIELD_TYPE,
  kSP_COMPONENTS_FIELD_INSID]

/- ===== decimal rendering of u32 (Rust Display, used by format!) ===== -/

def digitCh (d : Nat) : Char := Char.ofNat (48 + d)

def isDigitC (c : Char) : Bool := 48 ≤ c.toNat && c.toNat ≤ 57

def digitVal (c : Char) : Nat := c.toNat - 48

def natOfDigitsC (s : Str) : Nat := s.foldl (fun a c => 10 * a + digitVal c) 0

def natDigitsRev (fuel n : Nat) : List Char :=
  match fuel with
  | 0 => []
  | f + 1 => if n < 10 then [digitCh n] else digitCh (n % 10) :: natDigitsRev f (n / 10)

/-- Decimal rendering of a natural number (Rust u32 Display). -/
def natRepr (n : Nat) : Str := (natDigitsRev (n + 1) n).reverse

/- ===== to_env_format (config.rs lines 87-175) ===== -/

/-- The vector of lines pushed by `SharePointConfig::to_env_format`, in source
order, including the blank separator lines and the final empty line. -/
def envLinesAll (c : SharePointConfig) : List Str := [
  kUSER_NAME ++ '=' :: c.user_name,
  [],
  kSP_TENANT_ID ++ '=' :: c.tenant_id,
  kSP_CLIENT_ID ++ '=' :: c.client_id,
  kSP_CLIENT_SECRET ++ '=' :: c.client_secret,
  [],
  kSP_SITE_ID ++ '=' :: c.site_id,
  kSP_SITE_HOSTNAME ++ '=' :: c.site_hostname,
  kSP_SITE_PATH ++ '=' :: c.site_path,
  [],
  kSP_GRAPH_BASE ++ '=' :: c.graph_base,
  kSP_GRAPH_SCOPE ++ '=' :: c.graph_scope,
  kSP_TIMEOUT_S ++ '=' :: natRepr c.timeout_s,
  [],
  kSP_EVENTS_LIST_ID ++ '=' :: c.events_list_id,
  kSP_EVENTS_LIST_NAME ++ '=' :: c.events_list_name,
  kSP_EVENTS_SNAPSHOT_THRESHOLD_KB ++ '=' :: natRepr c.events_snapshot_threshold_kb,
  kSP_EVENTS_FIELD_KIND ++ '=' :: c.events_field_kind,
  kSP_EVENTS_FIELD_TS ++ '=' :: c.events_field_ts,
  kSP_EVENTS_FIELD_ACTOR ++ '=' :: c.events_field_actor,
  kSP_EVENTS_FIELD_VERSION ++ '=' :: c.events_field_version,
  kSP_EVENTS_FIELD_PAYLOAD ++ '=' :: c.events_field_payload,
  kSP_EVENTS_FIELD_SNAPSHOT_FILE ++ '=' :: c.events_field_snapshot_file,
  kSP_SNAPSHOTS_LIBRARY_ID ++ '=' :: c.snapshots_library_id,
  kSP_SNAPSHOTS_LIBRARY_NAME ++ '=' :: c.snapshots_library_name,
  [],
  kSP_FAILURES_LIST_ID ++ '=' :: c.failures_list_id,
  kSP_FAILURES_LIST_NAME ++ '=' :: c.failures_list_name,
  kSP_FAILURES_FIELD_COMPONENT ++ '=' :: c.failures_field_component,
  kSP_FAILURES_FIELD_DATE ++ '=' :: c.failures_field_date,
  kSP_FAILURES_FIELD_TYPE ++ '=' :: c.failures_field_type,
  [],
  kSP_COMPONENTS_LIST_ID ++ '=' :: c.components_list_id,
  kSP_COMPONENTS_LIST_NAME ++ '=' :: c.components_list_name,
  kSP_COMPONENTS_FIELD_ID ++ '=' :: c.components_field_id,
  kSP_COMPONENTS_FIELD_NAME ++ '=' :: c.components_field_name,
  kSP_COMPONENTS_FIELD_SUBTYPE ++ '=' :: c.components_field_subtype,
  kSP_COMPONENTS_FIELD_TYPE ++ '=' :: c.components_field_type,
  kSP_COMPONENTS_FIELD_INSID ++ '=' :: c.components_field_insid,
  []]

/-- `SharePointConfig::to_env_format`: the pushed lines joined with LF. -/
def toEnvFormat (c : SharePointConfig) : Str := joinNl (envLinesAll c)

/- ===== the f32 model ===== -/

/-- An exact rational value: `num / den` with `den` positive by construction. -/
structure Frac where
  num : Int
  den : Nat
deriving DecidableEq

inductive F32 where
  | finite (f : Frac)
  | inf
  | neginf
  | nan
deriving DecidableEq

/-- Round `n / d` (with `d > 0`) to the nearest natural number, ties to even. -/
def roundNEnat (n d : Nat) : Nat :=
  let q := n / d
  let r := n % d
  if d < 2 * r then q + 1
  else if 2 * r < d then q
  else if q % 2 = 0 then q else q + 1

def log2fuel : Nat → Nat → Nat
  | 0, _ => 0
  | f + 1, n => if 2 ≤ n then log2fuel f (n / 2) + 1 else 0

/-- Smallest `k` with `den ≤ n * 2 ^ k` (for `0 < n < den`), fuelled. -/
def binadeNegF : Nat → Nat → Nat → Nat
  | 0, _, _ => 0
  | f + 1, n, d => if d ≤ n then 0 else binadeNegF f (2 * n) d + 1

def f32Fuel : Nat := 4200

/-- IEEE-754 binary32 round-to-nearest-even of an exact rational.  Integers of
magnitude at most 2^24 are exactly representable, so they are returned
directly; otherwise the value is scaled into the binary32 quantum grid
(quantum `2 ^ (e - 23)` for a value in binade `e`, floored at the subnormal
quantum `2 ^ -149`), rounded to nearest-even, and checked for overflow at
`2 ^ 128`. -/
def toF32 (f : Frac) : F32 :=
  if f.num = 0 then .finite ⟨0, 1⟩
  else if f.den = 1 ∧ f.num.natAbs ≤ 16777216 then .finite f
  else
    let n := f.num.natAbs
    let e : Int := if f.den ≤ n then (log2fuel f32Fuel (n / f.den) : Int)
                   else -(binadeNegF f32Fuel n f.den : Int)
    let scale : Int := max (e - 23) (-149)
    let mnum : Nat := if 0 ≤ scale then n else n * 2 ^ (-scale).toNat
    let mden : Nat := if 0 ≤ scale then f.den * 2 ^ scale.toNat else f.den
    let mr : Nat := roundNEnat mnum mden
    let overflow : Bool := if 128 ≤ scale then 1 ≤ mr else 2 ^ (128 - scale).toNat ≤ mr
    if overflow then (if f.num < 0 then .neginf else .inf)
    else
      let vnum : Nat := if 0 ≤ scale then mr * 2 ^ scale.toNat else mr
      let vden : Nat := if 0 ≤ scale then 1 else 2 ^ (-scale).toNat
      .finite ⟨if f.num < 0 then -(vnum : Int) else (vnum : Int), vden⟩

/-- Rust `f32::round`: round half away from zero, exact on the model. -/
def roundHalfAwayF (f : Frac) : Int :=
  if 0 ≤ f.num then ((2 * f.num.toNat + f.den) / (2 * f.den) : Nat)
  else -(((2 * (-f.num).toNat + f.den) / (2 * f.den) : Nat) : Int)

/-- The numeric clamp of `config_from_env`: `.round().max(1.0) as u32`, where
the `as u32` cast saturates at `u32::MAX`. -/
def clampU32F (f : Frac) : Nat := (min (max (roundHalfAwayF f) 1) 4294967295).toNat

/- ===== Rust f32 FromStr (the grammar of f32::from_str) ===== -/

def parseSignF : Str → Bool × Str
  | [] => (false, [])
  | c :: cs => if c = '-' then (true, cs) else if c = '+' then (false, cs) else (false, c :: cs)

def parseExpPart : Str → Option Int
  | [] => some 0
  | c :: cs =>
    if c = 'e' ∨ c = 'E' then
      let sr := parseSignF cs
      let ds := sr.2.takeWhile isDigitC
      let rest := sr.2.dropWhile isDigitC
      if ds = [] then none
      else if rest = [] then
        some (if sr.1 then -(natOfDigitsC ds : Int) else (natOfDigitsC ds : Int))
      else none
    else none

def parseMantissa (s : Str) : Option (Nat × Nat × Str) :=
  let d1 := s.takeWhile isDigitC
  let r1 := s.dropWhile isDigitC
  match r1 with
  | c :: r2 =>
    if c = '.' then
      let d2 := r2.takeWhile isDigitC
      let r3 := r2.dropWhile isDigitC
      if d1 = [] ∧ d2 = [] then none
      else some (natOfDigitsC (d1 ++ d2), d2.length, r3)
    else if d1 = [] then none else some (natOfDigitsC d1, 0, r1)
  | [] => if d1 = [] then none else some (natOfDigitsC d1, 0, [])

/-- The exact decimal value `(-1)^neg * m * 10 ^ (ex - fl)` as a `Frac`. -/
def fracOfParts (neg : Bool) (m : Nat) (fl : Nat) (ex : Int) : Frac :=
  let net : Int := ex - fl
  let nnum : Nat := if 0 ≤ net then m * 10 ^ net.toNat else m
  let nden : Nat := if 0 ≤ net then 1 else 10 ^ (-net).toNat
  ⟨if neg then -(nnum : Int) else (nnum : Int), nden⟩

def lowerStr (s : Str) : Str := s.map Char.toLower

/-- Rust `str::parse::<f32>()`: correctly-rounded decimal-to-binary32
conversion over the documented grammar (optional sign; `inf`, `infinity` or
`nan` case-insensitively; otherwise digits with optional point, fraction and
exponent). -/
def rustParseF32 (s : Str) : Option F32 :=
  if s = [] then none
  else
    let sr := parseSignF s
    let rl := lowerStr sr.2
    if rl = "inf".data ∨ rl = "infinity".data then some (if sr.1 then .neginf else .inf)
    else if rl = "nan".data then some .nan
    else
      match parseMantissa sr.2 with
      | none => none
      | some mp =>
        match parseExpPart mp.2.2 with
        | none => none
        | some ex => some (toF32 (fracOfParts sr.1 mp.1 mp.2.1 ex))

/- ===== config_from_env and set_value (config.rs lines 299-415) ===== -/

/-- `set_value` seen as a read: the field value that a default `d` becomes
after `set_value(&mut field, values, key)`. -/
def getStrD (m : EnvMap) (k : Str) (d : Str) : Str :=
  match m k with
  | some v => if v = [] then d else v
  | none => d

/-- The numeric branches of `config_from_env`: parse as `f32`, keep the
default unless the parse succeeds with a finite value, else round, clamp at 1
and cast to u32. -/
def getNumD (m : EnvMap) (k : Str) (d : Nat) : Nat :=
  match m k with
  | some v =>
    match rustParseF32 v with
    | some (.finite q) => clampU32F q
    | _ => d
  | none => d

/-- `config_from_env`: a default-initialized entity with each field
overwritten from its key (each `set_value` call touches exactly one field, so
the imperative sequence is the per-field record below). -/
def configFromEnv (m : EnvMap) : SharePointConfig where
  user_name := getStrD m kUSER_NAME defaultConfig.user_name
  tenant_id := getStrD m kSP_TENANT_ID defaultConfig.tenant_id
  client_id := getStrD m kSP_CLIENT_ID defaultConfig.client_id
  client_secret := getStrD m kSP_CLIENT_SECRET defaultConfig.client_secret
  site_id := getStrD m kSP_SITE_ID defaultConfig.site_id
  site_hostname := getStrD m kSP_SITE_HOSTNAME defaultConfig.site_hostname
  site_path := getStrD m kSP_SITE_PATH defaultConfig.site_path
  events_list_id := getStrD m kSP_EVENTS_LIST_ID defaultConfig.events_list_id
  events_list_name := getStrD m kSP_EVENTS_LIST_NAME defaultConfig.events_list_name
  events_field_kind := getStrD m kSP_EVENTS_FIELD_KIND defaultConfig.events_field_kind
  events_field_ts := getStrD m kSP_EVENTS_FIELD_TS defaultConfig.events_field_ts
  events_field_actor := getStrD m kSP_EVENTS_FIELD_ACTOR defaultConfig.events_field_actor
  events_field_version := getStrD m kSP_EVENTS_FIELD_VERSION defaultConfig.events_field_version
  events_field_payload := getStrD m kSP_EVENTS_FIELD_PAYLOAD defaultConfig.events_field_payload
  events_field_snapshot_file :=
    getStrD m kSP_EVENTS_FIELD_SNAPSHOT_FILE defaultConfig.events_field_snapshot_file
  snapshots_library_id := getStrD m kSP_SNAPSHOTS_LIBRARY_ID defaultConfig.snapshots_library_id
  snapshots_library_name :=
    getStrD m kSP_SNAPSHOTS_LIBRARY_NAME defaultConfig.snapshots_library_name
  events_snapshot_threshold_kb :=
    getNumD m kSP_EVENTS_SNAPSHOT_THRESHOLD_KB defaultConfig.events_snapshot_threshold_kb
  failures_list_id := getStrD m kSP_FAILURES_LIST_ID defaultConfig.failures_list_id
  failures_list_name := getStrD m kSP_FAILURES_LIST_NAME defaultConfig.failures_list_name
  failures_field_component :=
    getStrD m kSP_FAILURES_FIELD_COMPONENT defaultConfig.failures_field_component
  failures_field_date := getStrD m kSP_FAILURES_FIELD_DATE defaultConfig.failures_field_date
  failures_field_type := getStrD m kSP_FAILURES_FIELD_TYPE defaultConfig.failures_field_type
  components_list_id := getStrD m kSP_COMPONENTS_LIST_ID defaultConfig.components_list_id
  components_list_name := getStrD m kSP_COMPONENTS_LIST_NAME defaultConfig.components_list_name
  components_field_id := getStrD m kSP_COMPONENTS_FIELD_ID defaultConfig.components_field_id
  components_field_name := getStrD m kSP_COMPONENTS_FIELD_NAME defaultConfig.components_field_name
  components_field_subtype :=
    getStrD m kSP_COMPONENTS_FIELD_SUBTYPE defaultConfig.components_field_subtype
  components_field_type :=
    getStrD m kSP_COMPONENTS_FIELD_TYPE defaultConfig.components_field_type
  components_field_insid :=
    getStrD m kSP_COMPONENTS_FIELD_INSID defaultConfig.components_field_insid
  graph_base := getStrD m kSP_GRAPH_BASE defaultConfig.graph_base
  graph_scope := getStrD m kSP_GRAPH_SCOPE defaultConfig.graph_scope
  timeout_s := getNumD m kSP_TIMEOUT_S defaultConfig.timeout_s

/- ===== serde_json round-trip model ===== -/

inductive JVal where
  | jstr (s : Str)
  | jnum (n : Nat)
deriving DecidableEq

abbrev JObj := List (Str × JVal)

def jLookup : JObj → Str → Option JVal
  | [], _ => none
  | kv :: rest, k => if kv.1 = k then some kv.2 else jLookup rest k

def jGetS (o : JObj) (k : Str) : Option Str :=
  match jLookup o k with
  | some (.jstr v) => some v
  | _ => none

/-- u32 members are range-checked by the derived serde Deserialize. -/
def jGetN (o : JObj) (k : Str) : Option Nat :=
  match jLookup o k with
  | some (.jnum n) => if n ≤ 4294967295 then some n else none
  | _ => none

/-- `serde_json::to_vec(config)` at the object level: one member per field in
declaration order. -/
def jencode (c : SharePointConfig) : JObj := [
  ("user_name".data, .jstr c.user_name),
  ("tenant_id".data, .jstr c.tenant_id),
  ("client_id".data, .jstr c.client_id),
  ("client_secret".data, .jstr c.client_secret),
  ("site_id".data, .jstr c.site_id),
  ("site_hostname".data, .jstr c.site_hostname),
  ("site_path".data, .jstr c.site_path),
  ("events_list_id".data, .jstr c.events_list_id),
  ("events_list_name".data, .jstr c.events_list_name),
  ("events_field_kind".data, .jstr c.events_field_kind),
  ("events_field_ts".data, .jstr c.events_field_ts),
  ("events_field_actor".data, .jstr c.events_field_actor),
  ("events_field_version".data, .jstr c.events_field_version),
  ("events_field_payload".data, .jstr c.events_field_payload),
  ("events_field_snapshot_file".data, .jstr c.events_field_snapshot_file),
  ("snapshots_library_id".data, .jstr c.snapshots_library_id),
  ("snapshots_library_name".data, .jstr c.snapshots_library_name),
  ("events_snapshot_threshold_kb".data, .jnum c.events_snapshot_threshold_kb),
  ("failures_list_id".data, .jstr c.failures_list_id),
  ("failures_list_name".data, .jstr c.failures_list_name),
  ("failures_field_component".data, .jstr c.failures_field_component),
  ("failures_field_date".data, .jstr c.failures_field_date),
  ("failures_field_type".data, .jstr c.failures_field_type),
  ("components_list_id".data, .jstr c.components_list_id),
  ("components_list_name".data, .jstr c.components_list_name),
  ("components_field_id".data, .jstr c.components_field_id),
  ("components_field_name".data, .jstr c.components_field_name),
  ("components_field_subtype".data, .jstr c.components_field_subtype),
  ("components_field_type".data, .jstr c.components_field_type),
  ("components_field_insid".data, .jstr c.components_field_insid),
  ("graph_base".data, .jstr c.graph_base),
  ("graph_scope".data, .jstr c.graph_scope),
  ("timeout_s".data, .jnum c.timeout_s)]

/-- `serde_json::from_slice::<SharePointConfig>` at the object level: every
field is required, strings as strings, u32 numbers range-checked. -/
def jdecode (o : JObj) : Option SharePointConfig :=
  match jGetS o ("user_name".data) with
  | none => none
  | some user_name =>
  match jGetS o ("tenant_id".data) with
  | none => none
  | some tenant_id =>
  match jGetS o ("client_id".data) with
  | none => none
  | some client_id =>
  match jGetS o ("client_secret".data) with
  | none => none
  | some client_secret =>
  match jGetS o ("site_id".data) with
  | none => none
  | some site_id =>
  match jGetS o ("site_hostname".data) with
  | none => none
  | some site_hostname =>
  match jGetS o ("site_path".data) with
  | none => none
  | some site_path =>
  match jGetS o ("events_list_id".data) with
  | none => none
  | some events_list_id =>
  match jGetS o ("events_list_name".data) with
  | none => none
  | some events_list_name =>
  match jGetS o ("events_field_kind".data) with
  | none => none
  | some events_field_kind =>
  match jGetS o ("events_field_ts".data) with
  | none => none
  | some events_field_ts =>
  match jGetS o ("events_field_actor".data) with
  | none => none
  | some events_field_actor =>
  match jGetS o ("events_field_version".data) with
  | none => none
  | some events_field_version =>
  match jGetS o ("events_field_payload".data) with
  | none => none
  | some events_field_payload =>
  match jGetS o ("events_field_snapshot_file".data) with
  | none => none
  | some events_field_snapshot_file =>
  match jGetS o ("snapshots_library_id".data) with
  | none => none
  | some snapshots_library_id =>
  match jGetS o ("snapshots_library_name".data) with
  | none => none
  | some snapshots_library_name =>
  match jGetN o ("events_snapshot_threshold_kb".data) with
  | none => none
  | some events_snapshot_threshold_kb =>
  match jGetS o ("failures_list_id".data) with
  | none => none
  | some failures_list_id =>
  match jGetS o ("failures_list_name".data) with
  | none => none
  | some failures_list_name =>
  match jGetS o ("failures_field_component".data) with
  | none => none
  | some failures_field_component =>
  match jGetS o ("failures_field_date".data) with
  | none => none
  | some failures_field_date =>
  match jGetS o ("failures_field_type".data) with
  | none => none
  | some failures_field_type =>
  match jGetS o ("components_list_id".data) with
  | none => none
  | some components_list_id =>
  match jGetS o ("components_list_name".data) with
  | none => none
  | some components_list_name =>
  match jGetS o ("components_field_id".data) with
  | none => none
  | some components_field_id =>
  match jGetS o ("components_field_name".data) with
  | none => none
  | some components_field_name =>
  match jGetS o ("components_field_subtype".data) with
  | none => none
  | some components_field_subtype =>
  match jGetS o ("components_field_type".data) with
  | none => none
  | some components_field_type =>
  match jGetS o ("components_field_insid".data) with
  | none => none
  | some components_field_insid =>
  match jGetS o ("graph_base".data) with
  | none => none
  | some graph_base =>
  match jGetS o ("graph_scope".data) with
  | none => none
  | some graph_scope =>
  match jGetN o ("timeout_s".data) with
  | none => none
  | some timeout_s =>
  some { 
    user_name := user_name,
    tenant_id := tenant_id,
    client_id := client_id,
    client_secret := client_secret,
    site_id := site_id,
    site_hostname := site_hostname,
    site_path := site_path,
    events_list_id := events_list_id,
    events_list_name := events_list_name,
    events_field_kind := events_field_kind,
    events_field_ts := events_field_ts,
    events_field_actor := events_field_actor,
    events_field_version := events_field_version,
    events_field_payload := events_field_payload,
    events_field_snapshot_file := events_field_snapshot_file,
    snapshots_library_id := snapshots_library_id,
    snapshots_library_name := snapshots_library_name,
    events_snapshot_threshold_kb := events_snapshot_threshold_kb,
    failures_list_id := failures_list_id,
    failures_list_name := failures_list_name,
    failures_field_component := failures_field_component,
    failures_field_date := failures_field_date,
    failures_field_type := failures_field_type,
    components_list_id := components_list_id,
    components_list_name := components_list_name,
    components_field_id := components_field_id,
    components_field_name := components_field_name,
    components_field_subtype := components_field_subtype,
    components_field_type := components_field_type,
    components_field_insid := components_field_insid,
    graph_base := graph_base,
    graph_scope := graph_scope,
    timeout_s := timeout_s }

/- ===== secure storage adapter, non-Windows build (config.rs lines 505-514) ===== -/

abbrev Bytes := List Nat

/-- `encrypt_bytes` on a platform without DPAPI: pass-through. -/
def encryptBytes (input : Bytes) : Except String Bytes := .ok input

/-- `decrypt_bytes` on a platform without DPAPI: pass-through. -/
def decryptBytes (input : Bytes) : Except String Bytes := .ok input

/- ===== config store (config.rs lines 178-275) ===== -/

/-- On-disk state of the three files `load_config` can consult.  `blobRead`,
`mirrorRead` and `cwdEnvRead` give the result of reading each file when it
exists (reads of existing files can fail, as `fs::read` can). -/
structure FsState (β : Type) where
  blobExists : Bool
  blobRead : Except String β
  mirrorExists : Bool
  mirrorRead : Except String Str
  cwdEnvExists : Bool
  cwdEnvRead : Except String Str

/-- Non-Windows unseal-then-decode of the blob: pass-through decryption
composed with JSON decoding. -/
def jsonUnseal (o : JObj) : Except String SharePointConfig :=
  match jdecode o with
  | some c => .ok c
  | none => .error "Invalid config.dat JSON"

/-- `validate_required` from config.rs. -/
def validateRequired (c : SharePointConfig) : Except String Unit :=
  if c.tenant_id = [] ∨ c.client_id = [] ∨ c.client_secret = [] then
    .error "Missing required SharePoint credentials"
  else .ok ()

def parseAndValidate (s : Str) : Except String SharePointConfig :=
  match validateRequired (configFromEnv (parseEnv s)) with
  | .ok _ => .ok (configFromEnv (parseEnv s))
  | .error e => .error e

/-- The `env_candidates` loop of `load_config`: the mirror path first, then a
`.env` in the current working directory; the first existing file is read,
parsed and validated. -/
def fallbackLoad (fs : FsState β) : Except String SharePointConfig :=
  if fs.mirrorExists then
    match fs.mirrorRead with
    | .error e => .error ("Failed to read .env: " ++ e)
    | .ok s => parseAndValidate s
  else if fs.cwdEnvExists then
    match fs.cwdEnvRead with
    | .error e => .error ("Failed to read .env: " ++ e)
    | .ok s => parseAndValidate s
  else .error "No configuration found"

/-- `ConfigManager::load_config`, with the platform decrypt+decode step as a
parameter.  When the blob exists, a read failure propagates; a decrypt or
decode failure logs a warning and falls through to the fallback. -/
def loadConfig (unsealDecode : β → Except String SharePointConfig) (fs : FsState β) :
    Except String SharePointConfig :=
  if fs.blobExists then
    match fs.blobRead with
    | .error e => .error ("Failed to read config.dat: " ++ e)
    | .ok b =>
      match unsealDecode b with
      | .ok c => .ok c
      | .error _ => fallbackLoad fs
  else fallbackLoad fs

/-- `ConfigManager::has_config`: the two owned paths only. -/
def hasConfigF (fs : FsState β) : Bool := fs.blobExists || fs.mirrorExists

/-- `ConfigManager::save_config` on the non-Windows build with writes
succeeding: serialize, pass-through encrypt, write the blob, write the
mirror.  Note it performs no validation itself. -/
def managerSave (c : SharePointConfig) (fs : FsState JObj) : FsState JObj :=
  { fs with
    blobExists := true
    blobRead := .ok (jencode c)
    mirrorExists := true
    mirrorRead := .ok (toEnvFormat c) }

/-- The `save_config` tauri command (config.rs lines 522-527): validate, then
delegate to `ConfigManager::save_config`. -/
def commandSave (c : SharePointConfig) (fs : FsState JObj) : Except String (FsState JObj) :=
  match validateRequired c with
  | .error e => .error e
  | .ok _ => .ok (managerSave c fs)

/-- The config-refresh step of `setup` (main.rs lines 149-166): when some
config exists, load it and re-save it, ignoring errors. -/
def refreshConfig (fs : FsState JObj) : FsState JObj :=
  if hasConfigF fs then
    match loadConfig jsonUnseal fs with
    | .ok c => managerSave c fs
    | .error _ => fs
  else fs

/- ===== health probe (main.rs lines 38-92) ===== -/

/-- Outcome of the single connect/write/read attempt of `check_health`. -/
inductive ProbeOutcome where
  | connectFail
  | writeFail
  | readFail
  | readOk (data : Str)

def containsStr (s pat : Str) : Bool :=
  (List.range (s.length + 1)).any fun i => pat.isPrefixOf (s.drop i)

/-- The response classification of `check_health`:
`response.contains("HTTP/1.1 200") or response.contains("HTTP/1.0 200")`. -/
def respIsOk (r : Str) : Bool :=
  containsStr r ("HTTP/1.1 200".data) || containsStr r ("HTTP/1.0 200".data)

/-- `check_health`: false on connect, write or read failure and on a
zero-byte read; otherwise the substring classification of the bytes read. -/
def checkHealth : ProbeOutcome → Bool
  | .connectFail => false
  | .writeFail => false
  | .readFail => false
  | .readOk d => if d.length = 0 then false else respIsOk d

/- ===== backend supervisor (main.rs lines 23-36, 94-131, 168-232, 255-271) ===== -/

/-- The shared supervisor state: the child handle and the ownership flag. -/
structure BackendSt where
  child : Option Nat
  weOwn : Bool
deriving DecidableEq

/-- `kill_backend`: take the handle out of the option and kill it if present.
Returns the new option and whether a process was killed. -/
def killBackend : Option Nat → Option Nat × Bool
  | some _ => (none, true)
  | none => (none, false)

/-- The `CloseRequested` handler of `on_window_event`: read the ownership
flag; only when it is set, run `kill_backend` on the stored handle. -/
def onCloseRequested (st : BackendSt) : BackendSt × Bool :=
  if st.weOwn then
    let kr := killBackend st.child
    ({ st with child := kr.1 }, kr.2)
  else (st, false)

/-- The poll loop of `wait_for_backend` over the finite sequence of probe
results the wait budget admits: true as soon as one probe succeeds. -/
def waitLoop : List Bool → Bool
  | [] => false
  | p :: rest => if p then true else waitLoop rest

structure SetupOutcome where
  result : Except String BackendSt
  killedOnFailure : Bool

/-- The probe/spawn/wait sequence of `setup` (main.rs lines 168-232): if the
first probe says the backend is already running, reuse it (ownership false);
otherwise spawn (ownership true), aborting if the spawn fails.  Then poll;
on timeout, kill the child exactly when this session owns it, and fail. -/
def setupSupervise (alreadyHealthy spawnOk : Bool) (probes : List Bool) : SetupOutcome :=
  if alreadyHealthy then
    if waitLoop probes then ⟨.ok ⟨none, false⟩, false⟩
    else ⟨.error "backend healthcheck failed - check logs above", false⟩
  else if spawnOk then
    if waitLoop probes then ⟨.ok ⟨some 0, true⟩, false⟩
    else ⟨.error "backend healthcheck failed - check logs above", true⟩
  else ⟨.error "Failed to spawn backend", false⟩

/- ===== claim-side (specification-worded) definitions ===== -/

/-- Specification wording of C2: the response begins with an HTTP/1.1 or
HTTP/1.0 200 status line. -/
def beginsWith200 (d : Str) : Bool :=
  ("HTTP/1.1 200".data).isPrefixOf d || ("HTTP/1.0 200".data).isPrefixOf d

/-- Specification wording of C6: strip one matching pair of surrounding
single or double quotes, if present. -/
def stripOnePair (v : Str) : Str :=
  match v.head?, v.getLast? with
  | some a, some b =>
    if 2 ≤ v.length ∧ a = b ∧ (a = dqChar ∨ a = sqChar) then (v.drop 1).dropLast else v
  | _, _ => v

/-- Specification wording of C6 for one line: a key with no `=` is ignored,
and values get one matching quote pair stripped. -/
def claimParseLineOrig (m : EnvMap) (raw : Str) : EnvMap :=
  let line := trimWs raw
  if line = [] then m
  else if line.headI = '#' then m
  else
    match (splitFirstAt '=' line).2 with
    | none => m
    | some v =>
      if trimWs (splitFirstAt '=' line).1 = [] then m
      else envInsert (trimWs (splitFirstAt '=' line).1) (stripOnePair (trimWs v)) m

/-- Amended wording of C6 for one line: a line with no `=` and a non-empty
key binds the key to the empty value, and all surrounding double quotes and
then all surrounding single quotes are stripped from values. -/
def claimParseLineAmended (m : EnvMap) (raw : Str) : EnvMap :=
  let line := trimWs raw
  if line = [] then m
  else if line.headI = '#' then m
  else
    let kp := (splitFirstAt '=' line).1
    if trimWs kp = [] then m
    else
      match (splitFirstAt '=' line).2 with
      | none => envInsert (trimWs kp) [] m
      | some v => envInsert (trimWs kp) (stripQuotes (trimWs v)) m

/-- Specification wording of C5: round the parsed float to the nearest
integer and floor at 1, with no u32 saturation. -/
def claimNumNoCap (m : EnvMap) (k : Str) (d : Int) : Int :=
  match m k with
  | some v =>
    match rustParseF32 v with
    | some (.finite q) => max (roundHalfAwayF q) 1
    | _ => d
  | none => d

/- ===== bookkeeping views used by the round-trip proofs ===== -/

/-- The line a key/value pair renders to in the mirror file; `none` is a
blank separator line. -/
def lineOfP : Option (Str × Str) → Str
  | none => []
  | some kv => kv.1 ++ '=' :: kv.2

/-- The effect of `parse_env` on a list of well-formed key/value lines. -/
def applyBinds : List (Option (Str × Str)) → EnvMap → EnvMap
  | [], m => m
  | none :: r, m => applyBinds r m
  | some kv :: r, m => applyBinds r (envInsert kv.1 (stripQuotes (trimWs kv.2)) m)

/-- Well-formedness of a mirror key as `parse_env` sees it. -/
abbrev KeyOk (k : Str) : Prop :=
  k ≠ [] ∧ isWs k.headI = false ∧ k.headI ≠ '#' ∧ '=' ∉ k ∧ trimWs k = k

/-- A string field value that survives the mirror text: no line breaks, and
unchanged by the trim and quote-stripping of `parse_env`. -/
abbrev CleanStr (v : Str) : Prop :=
  nlChar ∉ v ∧ crChar ∉ v ∧ stripQuotes (trimWs v) = v

/-- Hypotheses under which the amended C1 mirror round-trip holds: every
string field newline-free and stable under trimming and quote stripping, and
the two numeric fields between 1 and 2^24 (the integers f32 represents
exactly). -/
abbrev CleanConfig (c : SharePointConfig) : Prop :=
  CleanStr c.user_name ∧ CleanStr c.tenant_id ∧ CleanStr c.client_id ∧
  CleanStr c.client_secret ∧ CleanStr c.site_id ∧ CleanStr c.site_hostname ∧
  CleanStr c.site_path ∧ CleanStr c.events_list_id ∧ CleanStr c.events_list_name ∧
  CleanStr c.events_field_kind ∧ CleanStr c.events_field_ts ∧
  CleanStr c.events_field_actor ∧ CleanStr c.events_field_version ∧
  CleanStr c.events_field_payload ∧ CleanStr c.events_field_snapshot_file ∧
  CleanStr c.snapshots_library_id ∧ CleanStr c.snapshots_library_name ∧
  CleanStr c.failures_list_id ∧ CleanStr c.failures_list_name ∧
  CleanStr c.failures_field_component ∧ CleanStr c.failures_field_date ∧
  CleanStr c.failures_field_type ∧ CleanStr c.components_list_id ∧
  CleanStr c.components_list_name ∧ CleanStr c.components_field_id ∧
  CleanStr c.components_field_name ∧ CleanStr c.components_field_subtype ∧
  CleanStr c.components_field_type ∧ CleanStr c.components_field_insid ∧
  CleanStr c.graph_base ∧ CleanStr c.graph_scope ∧
  1 ≤ c.timeout_s ∧ c.timeout_s ≤ 16777216 ∧
  1 ≤ c.events_snapshot_threshold_kb ∧ c.events_snapshot_threshold_kb ≤ 16777216

/-- The key/value pairs (and blank lines) of `to_env_format`, in order,
without the final empty line. -/
def envPairsMain (c : SharePointConfig) : List (Option (Str × Str)) := [
  some (kUSER_NAME, c.user_name),
  none,
  some (kSP_TENANT_ID, c.tenant_id),
  some (kSP_CLIENT_ID, c.client_id),
  some (kSP_CLIENT_SECRET, c.client_secret),
  none,
  some (kSP_SITE_ID, c.site_id),
  some (kSP_SITE_HOSTNAME, c.site_hostname),
  some (kSP_SITE_PATH, c.site_path),
  none,
  some (kSP_GRAPH_BASE, c.graph_base),
  some (kSP_GRAPH_SCOPE, c.graph_scope),
  some (kSP_TIMEOUT_S, natRepr c.timeout_s),
  none,
  some (kSP_EVENTS_LIST_ID, c.events_list_id),
  some (kSP_EVENTS_LIST_NAME, c.events_list_name),
  some (kSP_EVENTS_SNAPSHOT_THRESHOLD_KB, natRepr c.events_snapshot_threshold_kb),
  some (kSP_EVENTS_FIELD_KIND, c.events_field_kind),
  some (kSP_EVENTS_FIELD_TS, c.events_field_ts),
  some (kSP_EVENTS_FIELD_ACTOR, c.events_field_actor),
  some (kSP_EVENTS_FIELD_VERSION, c.events_field_version),
  some (kSP_EVENTS_FIELD_PAYLOAD, c.events_field_payload),
  some (kSP_EVENTS_FIELD_SNAPSHOT_FILE, c.events_field_snapshot_file),
  some (kSP_SNAPSHOTS_LIBRARY_ID, c.snapshots_library_id),
  some (kSP_SNAPSHOTS_LIBRARY_NAME, c.snapshots_library_name),
  none,
  some (kSP_FAILURES_LIST_ID, c.failures_list_id),
  some (kSP_FAILURES_LIST_NAME, c.failures_list_name),
  some (kSP_FAILURES_FIELD_COMPONENT, c.failures_field_component),
  some (kSP_FAILURES_FIELD_DATE, c.failures_field_date),
  some (kSP_FAILURES_FIELD_TYPE, c.failures_field_type),
  none,
  some (kSP_COMPONENTS_LIST_ID, c.components_list_id),
  some (kSP_COMPONENTS_LIST_NAME, c.components_list_name),
  some (kSP_COMPONENTS_FIELD_ID, c.components_field_id),
  some (kSP_COMPONENTS_FIELD_NAME, c.components_field_name),
  some (kSP_COMPONENTS_FIELD_SUBTYPE, c.components_field_subtype),
  some (kSP_COMPONENTS_FIELD_TYPE, c.components_field_type),
  some (kSP_COMPONENTS_FIELD_INSID, c.components_field_insid)]

/- ===== concrete fixtures used by witnesses and counterexamples ===== -/

def respSneaky : Str := "HTTP/1.1 500 OK HTTP/1.1 200".data

/-- A valid entity whose string fields survive the mirror format. -/
def e0cfg : SharePointConfig :=
  { defaultConfig with tenant_id := ['t'], client_id := ['c'], client_secret := ['s'] }

/-- A valid entity whose tenant id is surrounded by double quotes. -/
def ce1cfg : SharePointConfig :=
  { defaultConfig with
    tenant_id := [dqChar, 'x', dqChar]
    client_id := ['x']
    client_secret := ['x'] }

/-- An entity with empty credentials (fails `validate_required`). -/
def ceInvalid : SharePointConfig := { defaultConfig with user_name := ['u'] }

/-- A state whose blob decodes to `ceInvalid` and with no mirror. -/
def fsBlobInvalid : FsState JObj :=
  ⟨true, Except.ok (jencode ceInvalid), false, Except.ok [], false, Except.ok []⟩

/-- A minimal valid mirror text. -/
def s0cwd : Str :=
  joinNl [kSP_TENANT_ID ++ '=' :: ['a'], kSP_CLIENT_ID ++ '=' :: ['b'],
    kSP_CLIENT_SECRET ++ '=' :: ['c']]

/-- Neither owned file present, a valid `.env` in the working directory. -/
def fs0cwd : FsState Unit := ⟨false, Except.ok (), false, Except.ok [], true, Except.ok s0cwd⟩

/-- Blob present but unreadable, mirror present and valid. -/
def fsReadErr : FsState Unit := ⟨true, Except.error "locked", true, Except.ok s0cwd, false,
  Except.ok []⟩

def timeoutFromMirror (v : Str) : Nat :=
  (configFromEnv (envInsert kSP_TIMEOUT_S v envEmpty)).timeout_s

def thresholdFromMirror (v : Str) : Nat :=
  (configFromEnv (envInsert kSP_EVENTS_SNAPSHOT_THRESHOLD_KB v envEmpty)).events_snapshot_threshold_kb

/-- The line `SP_SITE_ID=""x""`. -/
def qline : Str := kSP_SITE_ID ++ '=' :: dqChar :: dqChar :: 'x' :: dqChar :: dqChar :: []

/-- The text `SP_SITE_ID=x` followed by a bare `SP_SITE_ID` line. -/
def noEqText : Str := joinNl [kSP_SITE_ID ++ '=' :: ['x'], kSP_SITE_ID]

/- ===== theorems ===== -/

set_option maxRecDepth 40000

/-- C9: on the non-Windows build, seal and unseal return their input byte
sequence unchanged and never fail, so unseal after seal is the identity and
neither call can produce an error. -/
theorem c9_passthrough (b : Bytes) :
    (encryptBytes b).bind decryptBytes = Except.ok b ∧
    encryptBytes b = Except.ok b ∧ decryptBytes b = Except.ok b :=
  ⟨rfl, rfl, rfl⟩

/-- C2 (amended): the probe returns true iff the single read succeeded, read
at least one byte, and the bytes read contain the substring HTTP/1.1 200 or
HTTP/1.0 200 (anywhere, not only as a leading status line); every I/O
failure and a zero-byte read yield false. -/
theorem c2_health_characterization (o : ProbeOutcome) :
    checkHealth o = true ↔
      ∃ d, o = ProbeOutcome.readOk d ∧ d ≠ [] ∧ respIsOk d = true := by
  cases o with
  | connectFail => simp [checkHealth]
  | writeFail => simp [checkHealth]
  | readFail => simp [checkHealth]
  | readOk d =>
    simp only [checkHealth]
    constructor
    · intro h
      by_cases hd : d.length = 0
      · rw [if_pos hd] at h
        exact absurd h (by simp)
      · rw [if_neg hd] at h
        exact ⟨d, rfl, by simpa using hd, h⟩
    · rintro ⟨d2, heq, hne, hok⟩
      injection heq with h2
      subst h2
      rw [if_neg (by simpa using hne)]
      exact hok

/-- C2 (counterexample): a response that does not begin with a 200 status
line but mentions one later is classified healthy by `check_health`. -/
theorem c2_counterexample :
    checkHealth (ProbeOutcome.readOk respSneaky) = true ∧
    beginsWith200 respSneaky = false := by decide

/-- C7: a shutdown signal does not touch the backend when the ownership flag
is false; when it is true and a child handle is present, the child is killed
exactly once, and a repeated shutdown kills nothing because the handle was
taken out of the state. -/
theorem c7_ownership_gated_kill (st : BackendSt) :
    (st.weOwn = false → onCloseRequested st = (st, false)) ∧
    (∀ c, st.weOwn = true → st.child = some c →
      onCloseRequested st = (⟨none, true⟩, true) ∧
      onCloseRequested (onCloseRequested st).1 = ((onCloseRequested st).1, false)) := by
  constructor
  · intro h
    simp [onCloseRequested, h]
  · intro c h1 h2
    obtain ⟨ch, ow⟩ := st
    simp only at h1 h2
    subst h1
    subst h2
    constructor
    · simp [onCloseRequested, killBackend]
    · simp [onCloseRequested, killBackend]

theorem c7_ownership_gated_kill_witness :
    onCloseRequested ⟨some 5, false⟩ = (⟨some 5, false⟩, false) ∧
    (onCloseRequested ⟨some 5, true⟩ = (⟨none, true⟩, true) ∧
     onCloseRequested (onCloseRequested ⟨some 5, true⟩).1 =
       ((onCloseRequested ⟨some 5, true⟩).1, false)) :=
  ⟨(c7_ownership_gated_kill ⟨some 5, false⟩).1 rfl,
   (c7_ownership_gated_kill ⟨some 5, true⟩).2 5 rfl rfl⟩

/-- C8: when the poll loop never sees a healthy probe within the budget,
setup aborts with the fatal healthcheck error, and the spawned child is
killed beforehand exactly when this session owns it (i.e. when the backend
was not already healthy at startup). -/
theorem c8_timeout_kill (already spawnOk : Bool) (probes : List Bool)
    (hw : waitLoop probes = false) (hreach : already = true ∨ spawnOk = true) :
    (setupSupervise already spawnOk probes).result =
      Except.error "backend healthcheck failed - check logs above" ∧
    (setupSupervise already spawnOk probes).killedOnFailure = !already := by
  cases already <;> cases spawnOk <;> simp_all [setupSupervise]

theorem c8_timeout_kill_witness :
    ((setupSupervise false true [false, false]).result =
      Except.error "backend healthcheck failed - check logs above" ∧
     (setupSupervise false true [false, false]).killedOnFailure = !false) ∧
    ((setupSupervise true true [false, false]).result =
      Except.error "backend healthcheck failed - check logs above" ∧
     (setupSupervise true true [false, false]).killedOnFailure = !true) :=
  ⟨c8_timeout_kill false true [false, false] (by decide) (Or.inr rfl),
   c8_timeout_kill true true [false, false] (by decide) (Or.inl rfl)⟩

/-- C10: `has_config` consults only the blob and mirror paths, while
`load_config` additionally falls back to a `.env` in the current working
directory, so a state with neither owned file but a valid working-directory
`.env` answers false to `has_config` yet loads successfully. -/
theorem c10_hasconfig_load_divergence (β : Type) (ud : β → Except String SharePointConfig)
    (fs : FsState β) (s : Str)
    (h1 : fs.blobExists = false) (h2 : fs.mirrorExists = false)
    (h3 : fs.cwdEnvExists = true) (h4 : fs.cwdEnvRead = Except.ok s)
    (h5 : validateRequired (configFromEnv (parseEnv s)) = Except.ok ()) :
    hasConfigF fs = false ∧ loadConfig ud fs = Except.ok (configFromEnv (parseEnv s)) := by
  constructor
  · simp [hasConfigF, h1, h2]
  · simp [loadConfig, h1, fallbackLoad, h2, h3, h4, parseAndValidate, h5]

theorem c10_hasconfig_load_divergence_witness :
    hasConfigF fs0cwd = false ∧
    loadConfig (fun _ => Except.error "") fs0cwd =
      Except.ok (configFromEnv (parseEnv s0cwd)) :=
  c10_hasconfig_load_divergence Unit (fun _ => Except.error "") fs0cwd s0cwd rfl rfl rfl rfl
    rfl

/-- C3 (amended): a missing blob file, or a blob whose unseal or decode
fails, makes `load_config` fall through to the mirror fallback without
propagating, and with a valid mirror the caller observes success; however an
I/O failure reading an existing blob file propagates as an error. -/
theorem c3_blob_fallthrough (β : Type) (ud : β → Except String SharePointConfig)
    (fs : FsState β) :
    (fs.blobExists = false → loadConfig ud fs = fallbackLoad fs) ∧
    (∀ b e, fs.blobRead = Except.ok b → ud b = Except.error e →
      loadConfig ud fs = fallbackLoad fs) ∧
    (∀ b e s, fs.blobExists = true → fs.blobRead = Except.ok b → ud b = Except.error e →
      fs.mirrorExists = true → fs.mirrorRead = Except.ok s →
      validateRequired (configFromEnv (parseEnv s)) = Except.ok () →
      loadConfig ud fs = Except.ok (configFromEnv (parseEnv s))) ∧
    (∀ e, fs.blobExists = true → fs.blobRead = Except.error e →
      loadConfig ud fs = Except.error ("Failed to read config.dat: " ++ e)) := by
  refine ⟨?_, ?_, ?_, ?_⟩
  · intro h
    simp [loadConfig, h]
  · intro b e hb hud
    by_cases hex : fs.blobExists <;> simp [loadConfig, hex, hb, hud]
  · intro b e s hex hb hud hm hs hv
    simp [loadConfig, hex, hb, hud, fallbackLoad, hm, hs, parseAndValidate, hv]
  · intro e hex hb
    simp [loadConfig, hex, hb]

theorem c3_blob_fallthrough_witness :
    loadConfig (fun _ => Except.error "bad blob") fs0cwd = fallbackLoad fs0cwd :=
  (c3_blob_fallthrough Unit (fun _ => Except.error "bad blob") fs0cwd).1 rfl

/-- C3 (counterexample): a blob that exists but cannot be read propagates an
error to the caller even though a valid mirror is present and the fallback
alone would have succeeded. -/
theorem c3_counterexample :
    hasConfigF fsReadErr = true ∧
    fallbackLoad fsReadErr = Except.ok (configFromEnv (parseEnv s0cwd)) ∧
    loadConfig (fun _ => Except.ok defaultConfig) fsReadErr =
      Except.error ("Failed to read config.dat: " ++ "locked") :=
  ⟨rfl, rfl, rfl⟩

theorem parseAndValidate_ok {s : Str} {c2 : SharePointConfig}
    (h : parseAndValidate s = Except.ok c2) :
    validateRequired c2 = Except.ok () ∧ c2 = configFromEnv (parseEnv s) := by
  unfold parseAndValidate at h
  cases hv : validateRequired (configFromEnv (parseEnv s)) with
  | ok u =>
    cases u
    simp only [hv] at h
    simp only [Except.ok.injEq] at h
    subst h
    exact ⟨hv, rfl⟩
  | error e =>
    simp only [hv] at h
    exact absurd h (by simp)

/-- C4 (amended): `validate_required` fails, with the missing-credentials
error, exactly when tenant id, client id or client secret is empty; the save
command validates before every save; a fallback load only returns validated
entities; a load that succeeds from the blob returns the decoded entity
without any validation.  (The internal startup refresh re-saves a loaded
entity without re-validating it; see the counterexample.) -/
theorem c4_validation (c : SharePointConfig) (β : Type)
    (ud : β → Except String SharePointConfig) (fs : FsState β) (fsj : FsState JObj) :
    ((validateRequired c ≠ Except.ok ()) ↔
      (c.tenant_id = [] ∨ c.client_id = [] ∨ c.client_secret = [])) ∧
    ((c.tenant_id = [] ∨ c.client_id = [] ∨ c.client_secret = []) →
      validateRequired c = Except.error "Missing required SharePoint credentials" ∧
      commandSave c fsj = Except.error "Missing required SharePoint credentials") ∧
    (validateRequired c = Except.ok () → commandSave c fsj = Except.ok (managerSave c fsj)) ∧
    (∀ c2, fallbackLoad fs = Except.ok c2 → validateRequired c2 = Except.ok ()) ∧
    (∀ b c2, fs.blobExists = true → fs.blobRead = Except.ok b → ud b = Except.ok c2 →
      loadConfig ud fs = Except.ok c2) := by
  refine ⟨?_, ?_, ?_, ?_, ?_⟩
  · unfold validateRequired
    by_cases h : (c.tenant_id = [] ∨ c.client_id = [] ∨ c.client_secret = []) <;> simp [h]
  · intro h
    have hv : validateRequired c = Except.error "Missing required SharePoint credentials" := by
      unfold validateRequired
      rw [if_pos h]
    exact ⟨hv, by simp [commandSave, hv]⟩
  · intro h
    simp [commandSave, h]
  · intro c2 h
    obtain ⟨be, br, me, mr, ce, cr⟩ := fs
    cases me with
    | true =>
      cases mr with
      | error e => simp [fallbackLoad] at h
      | ok s =>
        simp only [fallbackLoad, if_pos] at h
        exact (parseAndValidate_ok h).1
    | false =>
      cases ce with
      | true =>
        cases cr with
        | error e => simp [fallbackLoad] at h
        | ok s =>
          simp only [fallbackLoad] at h
          norm_num at h
          exact (parseAndValidate_ok h).1
      | false => simp [fallbackLoad] at h
  · intro b c2 hex hb hud
    simp [loadConfig, hex, hb, hud]

theorem c4_validation_witness :
    validateRequired ceInvalid ≠ Except.ok () ∧
    loadConfig jsonUnseal fsBlobInvalid = Except.ok ceInvalid :=
  ⟨((c4_validation ceInvalid JObj jsonUnseal fsBlobInvalid fsBlobInvalid).1).mpr
      (Or.inl rfl),
   (c4_validation ceInvalid JObj jsonUnseal fsBlobInvalid fsBlobInvalid).2.2.2.2
      (jencode ceInvalid) ceInvalid rfl rfl rfl⟩

/-- C4 (counterexample): the startup config refresh loads an invalid entity
from the blob (a blob load is not validated) and re-saves it through
`ConfigManager::save_config` with no validation: an entity with empty
credentials is saved, so validation is not applied on every save. -/
theorem c4_counterexample :
    validateRequired ceInvalid = Except.error "Missing required SharePoint credentials" ∧
    (refreshConfig fsBlobInvalid).mirrorRead = Except.ok (toEnvFormat ceInvalid) ∧
    (refreshConfig fsBlobInvalid).blobRead = Except.ok (jencode ceInvalid) :=
  ⟨rfl, rfl, rfl⟩

/-- C5 (amended): each of the two numeric mirror keys is parsed as an f32;
an unparsable or non-finite value keeps the default; a finite parse is
rounded half-away-from-zero, floored at 1, and saturated at 4294967295 by
the u32 cast.  In particular the mirror value 0 yields 1, -5 yields 1, abc
keeps the default, 3.7 yields 4, and 5000000000 yields 4294967295. -/
theorem c5_numeric_clamp :
    (∀ m k d v q, m k = some v → rustParseF32 v = some (F32.finite q) →
      getNumD m k d = clampU32F q ∧ 1 ≤ clampU32F q ∧ clampU32F q ≤ 4294967295) ∧
    (∀ m k d v, m k = some v → rustParseF32 v = none → getNumD m k d = d) ∧
    (∀ m k d v f, m k = some v → rustParseF32 v = some f →
      f = F32.inf ∨ f = F32.neginf ∨ f = F32.nan → getNumD m k d = d) ∧
    timeoutFromMirror ("0".data) = 1 ∧
    timeoutFromMirror ("-5".data) = 1 ∧
    timeoutFromMirror ("abc".data) = 30 ∧
    timeoutFromMirror ("3.7".data) = 4 ∧
    thresholdFromMirror ("abc".data) = 100 ∧
    thresholdFromMirror ("3.7".data) = 4 ∧
    timeoutFromMirror ("5000000000".data) = 4294967295 := by
  refine ⟨?_, ?_, ?_, by decide, by decide, by decide, by decide, by decide, by decide,
    by decide⟩
  · intro m k d v q h1 h2
    refine ⟨by simp [getNumD, h1, h2], ?_, ?_⟩
    · simp only [clampU32F]
      omega
    · simp only [clampU32F]
      omega
  · intro m k d v h1 h2
    simp [getNumD, h1, h2]
  · intro m k d v f h1 h2 h3
    rcases h3 with h3 | h3 | h3 <;> subst h3 <;> simp [getNumD, h1, h2]

theorem c5_numeric_clamp_witness :
    getNumD (envInsert kSP_TIMEOUT_S ("abc".data) envEmpty) kSP_TIMEOUT_S 30 = 30 :=
  c5_numeric_clamp.2.1 (envInsert kSP_TIMEOUT_S ("abc".data) envEmpty) kSP_TIMEOUT_S 30
    ("abc".data) (by decide) (by decide)

/-- C5 (counterexample): for the mirror value 5000000000 the code saturates
at u32::MAX and yields 4294967295, while rounding to the nearest integer and
flooring at 1, as the claim states, would yield 5000000000. -/
theorem c5_counterexample :
    timeoutFromMirror ("5000000000".data) = 4294967295 ∧
    claimNumNoCap (envInsert kSP_TIMEOUT_S ("5000000000".data) envEmpty) kSP_TIMEOUT_S 30 =
      5000000000 := by decide

/- ===== string lemma kit ===== -/

theorem trimLeftP_cons_false {p : Char → Bool} {c : Char} (s : Str) (h : p c = false) :
    trimLeftP p (c :: s) = c :: s := by
  simp [trimLeftP, h]

theorem trimLeftP_append {p : Char → Bool} {c : Char} (a b : Str) (h : p c = false) :
    trimLeftP p (a ++ c :: b) = trimLeftP p a ++ c :: b := by
  induction a with
  | nil => simp [trimLeftP, h]
  | cons d a ih =>
    by_cases hd : p d <;> simp [trimLeftP, hd, ih]

theorem trimLeftP_idem {p : Char → Bool} (s : Str) :
    trimLeftP p (trimLeftP p s) = trimLeftP p s := by
  induction s with
  | nil => rfl
  | cons d s ih =>
    by_cases hd : p d <;> simp [trimLeftP, hd, ih]

theorem trimLeftP_eq_self {p : Char → Bool} (s : Str) (h : ∀ c ∈ s, p c = false) :
    trimLeftP p s = s := by
  cases s with
  | nil => rfl
  | cons d s => simp [trimLeftP, h d (List.mem_cons_self d s)]

theorem trimRightP_append_cons {p : Char → Bool} {c : Char} (a b : Str) (h : p c = false) :
    trimRightP p (a ++ c :: b) = a ++ c :: trimRightP p b := by
  unfold trimRightP
  rw [List.reverse_append, List.reverse_cons, List.append_assoc, List.singleton_append,
    trimLeftP_append b.reverse a.reverse h, List.reverse_append, List.reverse_cons,
    List.reverse_reverse, List.append_assoc, List.singleton_append]

theorem trimRightP_idem {p : Char → Bool} (s : Str) :
    trimRightP p (trimRightP p s) = trimRightP p s := by
  unfold trimRightP
  rw [List.reverse_reverse, trimLeftP_idem]

theorem trimRightP_eq_self {p : Char → Bool} (s : Str) (h : ∀ c ∈ s, p c = false) :
    trimRightP p s = s := by
  unfold trimRightP
  rw [trimLeftP_eq_self s.reverse (fun c hc => h c (List.mem_reverse.mp hc)),
    List.reverse_reverse]

theorem trimWs_keyline {c : Char} (k v : Str) (hc : isWs c = false) :
    trimWs ((c :: k) ++ '=' :: v) = (c :: k) ++ '=' :: trimRightP isWs v := by
  unfold trimWs
  rw [trimRightP_append_cons (c :: k) v (by decide), List.cons_append,
    trimLeftP_cons_false _ hc]

theorem trimWs_trimRightP (v : Str) : trimWs (trimRightP isWs v) = trimWs v := by
  unfold trimWs
  rw [trimRightP_idem]

theorem splitFirstAt_not_mem {c : Char} (a b : Str) (h : c ∉ a) :
    splitFirstAt c (a ++ c :: b) = (a, some b) := by
  induction a with
  | nil => simp [splitFirstAt]
  | cons d a ih =>
    simp only [List.mem_cons, not_or] at h
    have hdc : ¬d = c := fun hh => h.1 hh.symm
    simp [splitFirstAt, hdc, ih h.2]

theorem stripQuotes_eq_self (v : Str)
    (h : ∀ c ∈ v, c ≠ dqChar ∧ c ≠ sqChar) : stripQuotes v = v := by
  unfold stripQuotes trimMatchesC
  rw [trimRightP_eq_self v (fun c hc => by simp [(h c hc).1]),
    trimLeftP_eq_self v (fun c hc => by simp [(h c hc).1]),
    trimRightP_eq_self v (fun c hc => by simp [(h c hc).2]),
    trimLeftP_eq_self v (fun c hc => by simp [(h c hc).2])]

theorem trimWs_eq_self (v : Str) (h : ∀ c ∈ v, isWs c = false) : trimWs v = v := by
  unfold trimWs
  rw [trimRightP_eq_self v h, trimLeftP_eq_self v h]

theorem map_eq_self_of {α : Type} {f : α → α} (l : List α) (h : ∀ a ∈ l, f a = a) :
    l.map f = l := by
  rw [List.map_congr_left h]
  simp

theorem stripCrEnd_eq_self {l : Str} (h : crChar ∉ l) : stripCrEnd l = l := by
  unfold stripCrEnd
  cases hg : l.getLast? with
  | none => rfl
  | some c =>
    have hc : c ≠ crChar := fun hh => h (hh ▸ List.mem_of_getLast?_eq_some hg)
    simp [hc]

theorem parseEnvLine_blank (m : EnvMap) : parseEnvLine m [] = m := rfl

theorem parseEnvLine_kv (m : EnvMap) (key v : Str) (hk : KeyOk key) :
    parseEnvLine m (key ++ '=' :: v) = envInsert key (stripQuotes (trimWs v)) m := by
  obtain ⟨h1, h2, h3, h4, h5⟩ := hk
  cases key with
  | nil => exact absurd rfl h1
  | cons c k =>
    have hc : isWs c = false := by simpa [List.headI] using h2
    have hch : c ≠ '#' := by simpa [List.headI] using h3
    simp only [parseEnvLine]
    rw [trimWs_keyline k v hc]
    rw [if_neg (show ¬((c :: k) ++ '=' :: trimRightP isWs v = []) by simp)]
    rw [if_neg (show ¬(((c :: k) ++ '=' :: trimRightP isWs v).headI = '#') by
      simp [List.cons_append, List.headI, hch])]
    rw [splitFirstAt_not_mem (c :: k) (trimRightP isWs v) h4]
    rw [h5]
    rw [if_neg (show ¬(c :: k = []) by simp)]
    rw [trimWs_trimRightP]

theorem splitOnC_ne_nil (c : Char) (s : Str) : splitOnC c s ≠ [] := by
  induction s with
  | nil => simp [splitOnC]
  | cons d ds ih =>
    unfold splitOnC
    cases h : splitOnC c ds with
    | nil => simp
    | cons h1 t1 => by_cases hd : d = c <;> simp [hd]

theorem splitOnC_cons_self (c : Char) (b : Str) :
    splitOnC c (c :: b) = [] :: splitOnC c b := by
  conv_lhs => rw [splitOnC]
  cases h : splitOnC c b with
  | nil => exact absurd h (splitOnC_ne_nil c b)
  | cons h1 t1 => simp

theorem splitOnC_not_mem {c : Char} {l : Str} (h : c ∉ l) : splitOnC c l = [l] := by
  induction l with
  | nil => rfl
  | cons d ds ih =>
    simp only [List.mem_cons, not_or] at h
    have hdc : ¬d = c := fun hh => h.1 hh.symm
    conv_lhs => rw [splitOnC]
    rw [ih h.2]
    simp [hdc]

theorem splitOnC_append {c : Char} (a b : Str) (h : c ∉ a) :
    splitOnC c (a ++ c :: b) = a :: splitOnC c b := by
  induction a with
  | nil => simpa using splitOnC_cons_self c b
  | cons d a ih =>
    simp only [List.mem_cons, not_or] at h
    have hdc : ¬d = c := fun hh => h.1 hh.symm
    have ihh := ih h.2
    simp only [List.cons_append]
    conv_lhs => rw [splitOnC]
    rw [ihh]
    simp [hdc]

theorem splitOnC_joinNl (L : List Str) (hL : L ≠ []) (h : ∀ l ∈ L, nlChar ∉ l) :
    splitOnC nlChar (joinNl L) = L := by
  induction L with
  | nil => contradiction
  | cons l ls ih =>
    cases ls with
    | nil => exact splitOnC_not_mem (h l (List.mem_cons_self l []))
    | cons l2 ls2 =>
      show splitOnC nlChar (l ++ nlChar :: joinNl (l2 :: ls2)) = l :: l2 :: ls2
      rw [splitOnC_append l (joinNl (l2 :: ls2)) (h l (List.mem_cons_self l (l2 :: ls2)))]
      rw [ih (by simp) (fun x hx => h x (List.mem_cons_of_mem l hx))]

theorem rustLines_joinNl (L : List Str) (hne : joinNl L ≠ [])
    (hlast : L.getLast? = some []) (h : ∀ l ∈ L, nlChar ∉ l ∧ crChar ∉ l) :
    rustLines (joinNl L) = L.dropLast := by
  have hL : L ≠ [] := by rintro rfl; simp at hlast
  simp only [rustLines]
  rw [if_neg hne, splitOnC_joinNl L hL (fun l hl => (h l hl).1), if_pos hlast]
  exact map_eq_self_of L.dropLast
    (fun l hl => stripCrEnd_eq_self (h l (List.dropLast_subset L hl)).2)

theorem foldl_parseEnvLine_binds (P : List (Option (Str × Str))) (m : EnvMap)
    (h : ∀ kv : Str × Str, some kv ∈ P → KeyOk kv.1) :
    List.foldl parseEnvLine m (P.map lineOfP) = applyBinds P m := by
  induction P generalizing m with
  | nil => rfl
  | cons p r ih =>
    cases p with
    | none =>
      simp only [List.map_cons, List.foldl_cons, lineOfP]
      rw [parseEnvLine_blank]
      exact ih m (fun kv hm => h kv (List.mem_cons_of_mem none hm))
    | some kv =>
      have hk := h kv (List.mem_cons_self (some kv) r)
      simp only [List.map_cons, List.foldl_cons, lineOfP]
      rw [parseEnvLine_kv m kv.1 kv.2 hk]
      exact ih _ (fun kv2 hm => h kv2 (List.mem_cons_of_mem (some kv) hm))

/- ===== digit and decimal lemmas ===== -/

theorem digitVal_digitCh {d : Nat} (hd : d < 10) : digitVal (digitCh d) = d := by
  interval_cases d <;> decide

theorem isDigitC_digitCh {d : Nat} (hd : d < 10) : isDigitC (digitCh d) = true := by
  interval_cases d <;> decide

theorem isWs_digitCh {d : Nat} (hd : d < 10) : isWs (digitCh d) = false := by
  interval_cases d <;> decide

theorem digitCh_ne {d : Nat} (hd : d < 10) :
    digitCh d ≠ dqChar ∧ digitCh d ≠ sqChar ∧ digitCh d ≠ '#' ∧ digitCh d ≠ '=' ∧
    digitCh d ≠ nlChar ∧ digitCh d ≠ crChar ∧ digitCh d ≠ '-' ∧ digitCh d ≠ '+' ∧
    digitCh d ≠ '.' ∧ digitCh d ≠ 'i' ∧ digitCh d ≠ 'n' ∧
    Char.toLower (digitCh d) = digitCh d := by
  interval_cases d <;> decide

theorem natDigitsRev_mem (f : Nat) : ∀ n, n < 10 ^ f →
    ∀ c ∈ natDigitsRev f n, ∃ d, d < 10 ∧ c = digitCh d := by
  induction f with
  | zero =>
    intro n hf c hc
    rw [pow_zero] at hf
    interval_cases n
    simp [natDigitsRev] at hc
  | succ f ih =>
    intro n hf c hc
    unfold natDigitsRev at hc
    by_cases hn : n < 10
    · rw [if_pos hn] at hc
      simp at hc
      exact ⟨n, hn, hc⟩
    · rw [if_neg hn] at hc
      rcases List.mem_cons.mp hc with h | h
      · exact ⟨n % 10, Nat.mod_lt n (by norm_num), h⟩
      · have h2 : n < 10 ^ f * 10 := by rw [← pow_succ]; exact hf
        exact ih (n / 10) (by omega) c h

theorem natRepr_mem (n : Nat) : ∀ c ∈ natRepr n, ∃ d, d < 10 ∧ c = digitCh d := by
  intro c hc
  rw [natRepr, List.mem_reverse] at hc
  exact natDigitsRev_mem (n + 1) n
    (lt_of_lt_of_le (Nat.lt_pow_self (by norm_num) n)
      (Nat.pow_le_pow_right (by norm_num) (Nat.le_succ n))) c hc

theorem natRepr_ne_nil (n : Nat) : natRepr n ≠ [] := by
  unfold natRepr natDigitsRev
  by_cases hn : n < 10 <;> simp [hn]

theorem natOfDigitsC_concat (l : Str) (c : Char) :
    natOfDigitsC (l ++ [c]) = 10 * natOfDigitsC l + digitVal c := by
  simp [natOfDigitsC, List.foldl_append]

theorem natOfDigitsC_natDigitsRev (f : Nat) : ∀ n, n < 10 ^ f →
    natOfDigitsC (natDigitsRev f n).reverse = n := by
  induction f with
  | zero =>
    intro n hf
    rw [pow_zero] at hf
    interval_cases n
    rfl
  | succ f ih =>
    intro n hf
    unfold natDigitsRev
    by_cases hn : n < 10
    · rw [if_pos hn]
      show natOfDigitsC [digitCh n] = n
      simp [natOfDigitsC, digitVal_digitCh hn]
    · rw [if_neg hn]
      rw [List.reverse_cons, natOfDigitsC_concat]
      have h2 : n < 10 ^ f * 10 := by rw [← pow_succ]; exact hf
      rw [ih (n / 10) (by omega), digitVal_digitCh (Nat.mod_lt n (by norm_num))]
      omega

theorem natOfDigitsC_natRepr (n : Nat) : natOfDigitsC (natRepr n) = n :=
  natOfDigitsC_natDigitsRev (n + 1) n
    (lt_of_lt_of_le (Nat.lt_pow_self (by norm_num) n)
      (Nat.pow_le_pow_right (by norm_num) (Nat.le_succ n)))

theorem takeWhile_eq_self {p : Char → Bool} (l : Str) (h : ∀ c ∈ l, p c = true) :
    l.takeWhile p = l ∧ l.dropWhile p = [] := by
  induction l with
  | nil => exact ⟨rfl, rfl⟩
  | cons d t ih =>
    have hd := h d (List.mem_cons_self d t)
    have iht := ih (fun c hc => h c (List.mem_cons_of_mem d hc))
    simp [List.takeWhile_cons, List.dropWhile_cons, hd, iht.1, iht.2]

theorem parseSignF_nosign (l : Str) (hne : l ≠ [])
    (h : ∀ c ∈ l, c ≠ '-' ∧ c ≠ '+') : parseSignF l = (false, l) := by
  cases l with
  | nil => exact absurd rfl hne
  | cons c t =>
    have hc := h c (List.mem_cons_self c t)
    simp [parseSignF, hc.1, hc.2]

theorem lowerStr_digits (l : Str) (h : ∀ c ∈ l, ∃ d, d < 10 ∧ c = digitCh d) :
    lowerStr l = l :=
  map_eq_self_of l (fun c hc => by
    obtain ⟨d, hd, rfl⟩ := h c hc
    exact (digitCh_ne hd).2.2.2.2.2.2.2.2.2.2.2)

theorem rustParseF32_natRepr (n : Nat) :
    rustParseF32 (natRepr n) = some (toF32 ⟨(n : Int), 1⟩) := by
  have hmem := natRepr_mem n
  have hne := natRepr_ne_nil n
  have hdig : ∀ c ∈ natRepr n, isDigitC c = true := fun c hc => by
    obtain ⟨d, hd, rfl⟩ := hmem c hc
    exact isDigitC_digitCh hd
  have hsign : parseSignF (natRepr n) = (false, natRepr n) :=
    parseSignF_nosign (natRepr n) hne (fun c hc => by
      obtain ⟨d, hd, rfl⟩ := hmem c hc
      exact ⟨(digitCh_ne hd).2.2.2.2.2.2.1, (digitCh_ne hd).2.2.2.2.2.2.2.1⟩)
  have hinf : ¬(natRepr n = "inf".data ∨ natRepr n = "infinity".data) := by
    rintro (h | h) <;>
    · have hi : 'i' ∈ natRepr n := by rw [h]; decide
      obtain ⟨d, hd, hdc⟩ := hmem 'i' hi
      exact (digitCh_ne hd).2.2.2.2.2.2.2.2.2.1 hdc.symm
  have hnan : ¬(natRepr n = "nan".data) := by
    intro h
    have hi : 'n' ∈ natRepr n := by rw [h]; decide
    obtain ⟨d, hd, hdc⟩ := hmem 'n' hi
    exact (digitCh_ne hd).2.2.2.2.2.2.2.2.2.2.1 hdc.symm
  have htw := takeWhile_eq_self (p := isDigitC) (natRepr n) hdig
  unfold rustParseF32
  rw [if_neg hne, hsign]
  simp only [lowerStr_digits (natRepr n) hmem]
  rw [if_neg hinf, if_neg hnan]
  simp only [parseMantissa, htw.1, htw.2]
  rw [if_neg hne]
  simp only [parseExpPart]
  rw [natOfDigitsC_natRepr]
  simp only [fracOfParts]
  norm_num

theorem toF32_smallInt (n : Nat) (h1 : 1 ≤ n) (h2 : n ≤ 16777216) :
    toF32 ⟨(n : Int), 1⟩ = F32.finite ⟨(n : Int), 1⟩ := by
  unfold toF32
  rw [if_neg (show ¬((⟨(n : Int), 1⟩ : Frac).num = 0) by simp only []; omega)]
  rw [if_pos (show (⟨(n : Int), 1⟩ : Frac).den = 1 ∧
      (⟨(n : Int), 1⟩ : Frac).num.natAbs ≤ 16777216 by
    refine ⟨rfl, ?_⟩
    simpa using h2)]

theorem clampU32F_nat (n : Nat) (h1 : 1 ≤ n) (h2 : n ≤ 16777216) :
    clampU32F ⟨(n : Int), 1⟩ = n := by
  simp only [clampU32F, roundHalfAwayF]
  rw [if_pos (show (0 : Int) ≤ (⟨(n : Int), 1⟩ : Frac).num by simp)]
  simp only [Int.toNat_natCast]
  omega

theorem cleanup_natRepr (n : Nat) : stripQuotes (trimWs (natRepr n)) = natRepr n := by
  have hmem := natRepr_mem n
  rw [trimWs_eq_self (natRepr n) (fun c hc => by
    obtain ⟨d, hd, rfl⟩ := hmem c hc
    exact isWs_digitCh hd)]
  exact stripQuotes_eq_self (natRepr n) (fun c hc => by
    obtain ⟨d, hd, rfl⟩ := hmem c hc
    exact ⟨(digitCh_ne hd).1, (digitCh_ne hd).2.1⟩)

theorem getNumD_natRepr (m : EnvMap) (k : Str) (d n : Nat)
    (hm : m k = some (natRepr n)) (h1 : 1 ≤ n) (h2 : n ≤ 16777216) :
    getNumD m k d = n := by
  simp only [getNumD, hm, rustParseF32_natRepr n, toF32_smallInt n h1 h2]
  exact clampU32F_nat n h1 h2

theorem envLinesAll_eq (c : SharePointConfig) :
    envLinesAll c = (envPairsMain c).map lineOfP ++ [[]] := rfl

theorem envLinesAll_getLast (c : SharePointConfig) :
    (envLinesAll c).getLast? = some [] := rfl

theorem lookup_tenant_id (e : SharePointConfig) :
    applyBinds (envPairsMain e) envEmpty kSP_TENANT_ID =
      some (stripQuotes (trimWs e.tenant_id)) := rfl
theorem lookup_user_name (e : SharePointConfig) :
    applyBinds (envPairsMain e) envEmpty kUSER_NAME =
      some (stripQuotes (trimWs (e.user_name))) := rfl

theorem lookup_client_id (e : SharePointConfig) :
    applyBinds (envPairsMain e) envEmpty kSP_CLIENT_ID =
      some (stripQuotes (trimWs (e.client_id))) := rfl

theorem lookup_client_secret (e : SharePointConfig) :
    applyBinds (envPairsMain e) envEmpty kSP_CLIENT_SECRET =
      some (stripQuotes (trimWs (e.client_secret))) := rfl

theorem lookup_site_id (e : SharePointConfig) :
    applyBinds (envPairsMain e) envEmpty kSP_SITE_ID =
      some (stripQuotes (trimWs (e.site_id))) := rfl

theorem lookup_site_hostname (e : SharePointConfig) :
    applyBinds (envPairsMain e) envEmpty kSP_SITE_HOSTNAME =
      some (stripQuotes (trimWs (e.site_hostname))) := rfl

theorem lookup_site_path (e : SharePointConfig) :
    applyBinds (envPairsMain e) envEmpty kSP_SITE_PATH =
      some (stripQuotes (trimWs (e.site_path))) := rfl

theorem lookup_graph_base (e : SharePointConfig) :
    applyBinds (envPairsMain e) envEmpty kSP_GRAPH_BASE =
      some (stripQuotes (trimWs (e.graph_base))) := rfl

theorem lookup_graph_scope (e : SharePointConfig) :
    applyBinds (envPairsMain e) envEmpty kSP_GRAPH_SCOPE =
      some (stripQuotes (trimWs (e.graph_scope))) := rfl

theorem lookup_timeout_s (e : SharePointConfig) :
    applyBinds (envPairsMain e) envEmpty kSP_TIMEOUT_S =
      some (stripQuotes (trimWs (natRepr e.timeout_s))) := rfl

theorem lookup_events_list_id (e : SharePointConfig) :
    applyBinds (envPairsMain e) envEmpty kSP_EVENTS_LIST_ID =
      some (stripQuotes (trimWs (e.events_list_id))) := rfl

theorem lookup_events_list_name (e : SharePointConfig) :
    applyBinds (envPairsMain e) envEmpty kSP_EVENTS_LIST_NAME =
      some (stripQuotes (trimWs (e.events_list_name))) := rfl

theorem lookup_events_snapshot_threshold_kb (e : SharePointConfig) :
    applyBinds (envPairsMain e) envEmpty kSP_EVENTS_SNAPSHOT_THRESHOLD_KB =
      some (stripQuotes (trimWs (natRepr e.events_snapshot_threshold_kb))) := rfl

theorem lookup_events_field_kind (e : SharePointConfig) :
    applyBinds (envPairsMain e) envEmpty kSP_EVENTS_FIELD_KIND =
      some (stripQuotes (trimWs (e.events_field_kind))) := rfl

theorem lookup_events_field_ts (e : SharePointConfig) :
    applyBinds (envPairsMain e) envEmpty kSP_EVENTS_FIELD_TS =
      some (stripQuotes (trimWs (e.events_field_ts))) := rfl

theorem lookup_events_field_actor (e : SharePointConfig) :
    applyBinds (envPairsMain e) envEmpty kSP_EVENTS_FIELD_ACTOR =
      some (stripQuotes (trimWs (e.events_field_actor))) := rfl

theorem lookup_events_field_version (e : SharePointConfig) :
    applyBinds (envPairsMain e) envEmpty kSP_EVENTS_FIELD_VERSION =
      some (stripQuotes (trimWs (e.events_field_version))) := rfl

theorem lookup_events_field_payload (e : SharePointConfig) :
    applyBinds (envPairsMain e) envEmpty kSP_EVENTS_FIELD_PAYLOAD =
      some (stripQuotes (trimWs (e.events_field_payload))) := rfl

theorem lookup_events_field_snapshot_file (e : SharePointConfig) :
    applyBinds (envPairsMain e) envEmpty kSP_EVENTS_FIELD_SNAPSHOT_FILE =
      some (stripQuotes (trimWs (e.events_field_snapshot_file))) := rfl

theorem lookup_snapshots_library_id (e : SharePointConfig) :
    applyBinds (envPairsMain e) envEmpty kSP_SNAPSHOTS_LIBRARY_ID =
      some (stripQuotes (trimWs (e.snapshots_library_id))) := rfl

theorem lookup_snapshots_library_name (e : SharePointConfig) :
    applyBinds (envPairsMain e) envEmpty kSP_SNAPSHOTS_LIBRARY_NAME =
      some (stripQuotes (trimWs (e.snapshots_library_name))) := rfl

theorem lookup_failures_list_id (e : SharePointConfig) :
    applyBinds (envPairsMain e) envEmpty kSP_FAILURES_LIST_ID =
      some (stripQuotes (trimWs (e.failures_list_id))) := rfl

theorem lookup_failures_list_name (e : SharePointConfig) :
    applyBinds (envPairsMain e) envEmpty kSP_FAILURES_LIST_NAME =
      some (stripQuotes (trimWs (e.failures_list_name))) := rfl

theorem lookup_failures_field_component (e : SharePointConfig) :
    applyBinds (envPairsMain e) envEmpty kSP_FAILURES_FIELD_COMPONENT =
      some (stripQuotes (trimWs (e.failures_field_component))) := rfl

theorem lookup_failures_field_date (e : SharePointConfig) :
    applyBinds (envPairsMain e) envEmpty kSP_FAILURES_FIELD_DATE =
      some (stripQuotes (trimWs (e.failures_field_date))) := rfl

theorem lookup_failures_field_type (e : SharePointConfig) :
    applyBinds (envPairsMain e) envEmpty kSP_FAILURES_FIELD_TYPE =
      some (stripQuotes (trimWs (e.failures_field_type))) := rfl

theorem lookup_components_list_id (e : SharePointConfig) :
    applyBinds (envPairsMain e) envEmpty kSP_COMPONENTS_LIST_ID =
      some (stripQuotes (trimWs (e.components_list_id))) := rfl

theorem lookup_components_list_name (e : SharePointConfig) :
    applyBinds (envPairsMain e) envEmpty kSP_COMPONENTS_LIST_NAME =
      some (stripQuotes (trimWs (e.components_list_name))) := rfl

theorem lookup_components_field_id (e : SharePointConfig) :
    applyBinds (envPairsMain e) envEmpty kSP_COMPONENTS_FIELD_ID =
      some (stripQuotes (trimWs (e.components_field_id))) := rfl

theorem lookup_components_field_name (e : SharePointConfig) :
    applyBinds (envPairsMain e) envEmpty kSP_COMPONENTS_FIELD_NAME =
      some (stripQuotes (trimWs (e.components_field_name))) := rfl

theorem lookup_components_field_subtype (e : SharePointConfig) :
    applyBinds (envPairsMain e) envEmpty kSP_COMPONENTS_FIELD_SUBTYPE =
      some (stripQuotes (trimWs (e.components_field_subtype))) := rfl

theorem lookup_components_field_type (e : SharePointConfig) :
    applyBinds (envPairsMain e) envEmpty kSP_COMPONENTS_FIELD_TYPE =
      some (stripQuotes (trimWs (e.components_field_type))) := rfl

theorem lookup_components_field_insid (e : SharePointConfig) :
    applyBinds (envPairsMain e) envEmpty kSP_COMPONENTS_FIELD_INSID =
      some (stripQuotes (trimWs (e.components_field_insid))) := rfl

theorem not_mem_keyline {x : Char} {k v : Str} (h1 : x ∉ k) (h2 : x ≠ '=') (h3 : x ∉ v) :
    x ∉ k ++ '=' :: v := by
  intro hx
  rcases List.mem_append.mp hx with hh | hh
  · exact h1 hh
  · rcases List.mem_cons.mp hh with hh | hh
    · exact h2 hh
    · exact h3 hh

theorem natRepr_no_nl_cr (n : Nat) : nlChar ∉ natRepr n ∧ crChar ∉ natRepr n := by
  refine ⟨fun hmem => ?_, fun hmem => ?_⟩
  · obtain ⟨d, hd, hdc⟩ := natRepr_mem n nlChar hmem
    exact (digitCh_ne hd).2.2.2.2.1 hdc.symm
  · obtain ⟨d, hd, hdc⟩ := natRepr_mem n crChar hmem
    exact (digitCh_ne hd).2.2.2.2.2.1 hdc.symm

theorem parseEnv_toEnvFormat (c : SharePointConfig) (h : CleanConfig c) :
    parseEnv (toEnvFormat c) = applyBinds (envPairsMain c) envEmpty := by
  obtain ⟨hf_user_name, hf_tenant_id, hf_client_id, hf_client_secret, hf_site_id, hf_site_hostname, hf_site_path, hf_events_list_id, hf_events_list_name, hf_events_field_kind, hf_events_field_ts, hf_events_field_actor, hf_events_field_version, hf_events_field_payload, hf_events_field_snapshot_file, hf_snapshots_library_id, hf_snapshots_library_name, hf_failures_list_id, hf_failures_list_name, hf_failures_field_component, hf_failures_field_date, hf_failures_field_type, hf_components_list_id, hf_components_list_name, hf_components_field_id, hf_components_field_name, hf_components_field_subtype, hf_components_field_type, hf_components_field_insid, hf_graph_base, hf_graph_scope, ht1, ht2, hk1, hk2⟩ := h
  have hlines : ∀ l ∈ envLinesAll c, nlChar ∉ l ∧ crChar ∉ l := by
    intro l hl
    simp only [envLinesAll, List.mem_cons, List.not_mem_nil, or_false] at hl
    rcases hl with rfl | rfl | rfl | rfl | rfl | rfl | rfl | rfl | rfl | rfl | rfl | rfl | rfl | rfl | rfl | rfl | rfl | rfl | rfl | rfl | rfl | rfl | rfl | rfl | rfl | rfl | rfl | rfl | rfl | rfl | rfl | rfl | rfl | rfl | rfl | rfl | rfl | rfl | rfl | rfl
    · exact ⟨not_mem_keyline (by decide) (by decide) hf_user_name.1,
        not_mem_keyline (by decide) (by decide) hf_user_name.2.1⟩
    · exact ⟨List.not_mem_nil _, List.not_mem_nil _⟩
    · exact ⟨not_mem_keyline (by decide) (by decide) hf_tenant_id.1,
        not_mem_keyline (by decide) (by decide) hf_tenant_id.2.1⟩
    · exact ⟨not_mem_keyline (by decide) (by decide) hf_client_id.1,
        not_mem_keyline (by decide) (by decide) hf_client_id.2.1⟩
    · exact ⟨not_mem_keyline (by decide) (by decide) hf_client_secret.1,
        not_mem_keyline (by decide) (by decide) hf_client_secret.2.1⟩
    · exact ⟨List.not_mem_nil _, List.not_mem_nil _⟩
    · exact ⟨not_mem_keyline (by decide) (by decide) hf_site_id.1,
        not_mem_keyline (by decide) (by decide) hf_site_id.2.1⟩
    · exact ⟨not_mem_keyline (by decide) (by decide) hf_site_hostname.1,
        not_mem_keyline (by decide) (by decide) hf_site_hostname.2.1⟩
    · exact ⟨not_mem_keyline (by decide) (by decide) hf_site_path.1,
        not_mem_keyline (by decide) (by decide) hf_site_path.2.1⟩
    · exact ⟨List.not_mem_nil _, List.not_mem_nil _⟩
    · exact ⟨not_mem_keyline (by decide) (by decide) hf_graph_base.1,
        not_mem_keyline (by decide) (by decide) hf_graph_base.2.1⟩
    · exact ⟨not_mem_keyline (by decide) (by decide) hf_graph_scope.1,
        not_mem_keyline (by decide) (by decide) hf_graph_scope.2.1⟩
    · exact ⟨not_mem_keyline (by decide) (by decide) (natRepr_no_nl_cr c.timeout_s).1,
        not_mem_keyline (by decide) (by decide) (natRepr_no_nl_cr c.timeout_s).2⟩
    · exact ⟨List.not_mem_nil _, List.not_mem_nil _⟩
    · exact ⟨not_mem_keyline (by decide) (by decide) hf_events_list_id.1,
        not_mem_keyline (by decide) (by decide) hf_events_list_id.2.1⟩
    · exact ⟨not_mem_keyline (by decide) (by decide) hf_events_list_name.1,
        not_mem_keyline (by decide) (by decide) hf_events_list_name.2.1⟩
    · exact ⟨not_mem_keyline (by decide) (by decide) (natRepr_no_nl_cr c.events_snapshot_threshold_kb).1,
        not_mem_keyline (by decide) (by decide) (natRepr_no_nl_cr c.events_snapshot_threshold_kb).2⟩
    · exact ⟨not_mem_keyline (by decide) (by decide) hf_events_field_kind.1,
        not_mem_keyline (by decide) (by decide) hf_events_field_kind.2.1⟩
    · exact ⟨not_mem_keyline (by decide) (by decide) hf_events_field_ts.1,
        not_mem_keyline (by decide) (by decide) hf_events_field_ts.2.1⟩
    · exact ⟨not_mem_keyline (by decide) (by decide) hf_events_field_actor.1,
        not_mem_keyline (by decide) (by decide) hf_events_field_actor.2.1⟩
    · exact ⟨not_mem_keyline (by decide) (by decide) hf_events_field_version.1,
        not_mem_keyline (by decide) (by decide) hf_events_field_version.2.1⟩
    · exact ⟨not_mem_keyline (by decide) (by decide) hf_events_field_payload.1,
        not_mem_keyline (by decide) (by decide) hf_events_field_payload.2.1⟩
    · exact ⟨not_mem_keyline (by decide) (by decide) hf_events_field_snapshot_file.1,
        not_mem_keyline (by decide) (by decide) hf_events_field_snapshot_file.2.1⟩
    · exact ⟨not_mem_keyline (by decide) (by decide) hf_snapshots_library_id.1,
        not_mem_keyline (by decide) (by decide) hf_snapshots_library_id.2.1⟩
    · exact ⟨not_mem_keyline (by decide) (by decide) hf_snapshots_library_name.1,
        not_mem_keyline (by decide) (by decide) hf_snapshots_library_name.2.1⟩
    · exact ⟨List.not_mem_nil _, List.not_mem_nil _⟩
    · exact ⟨not_mem_keyline (by decide) (by decide) hf_failures_list_id.1,
        not_mem_keyline (by decide) (by decide) hf_failures_list_id.2.1⟩
    · exact ⟨not_mem_keyline (by decide) (by decide) hf_failures_list_name.1,
        not_mem_keyline (by decide) (by decide) hf_failures_list_name.2.1⟩
    · exact ⟨not_mem_keyline (by decide) (by decide) hf_failures_field_component.1,
        not_mem_keyline (by decide) (by decide) hf_failures_field_component.2.1⟩
    · exact ⟨not_mem_keyline (by decide) (by decide) hf_failures_field_date.1,
        not_mem_keyline (by decide) (by decide) hf_failures_field_date.2.1⟩
    · exact ⟨not_mem_keyline (by decide) (by decide) hf_failures_field_type.1,
        not_mem_keyline (by decide) (by decide) hf_failures_field_type.2.1⟩
    · exact ⟨List.not_mem_nil _, List.not_mem_nil _⟩
    · exact ⟨not_mem_keyline (by decide) (by decide) hf_components_list_id.1,
        not_mem_keyline (by decide) (by decide) hf_components_list_id.2.1⟩
    · exact ⟨not_mem_keyline (by decide) (by decide) hf_components_list_name.1,
        not_mem_keyline (by decide) (by decide) hf_components_list_name.2.1⟩
    · exact ⟨not_mem_keyline (by decide) (by decide) hf_components_field_id.1,
        not_mem_keyline (by decide) (by decide) hf_components_field_id.2.1⟩
    · exact ⟨not_mem_keyline (by decide) (by decide) hf_components_field_name.1,
        not_mem_keyline (by decide) (by decide) hf_components_field_name.2.1⟩
    · exact ⟨not_mem_keyline (by decide) (by decide) hf_components_field_subtype.1,
        not_mem_keyline (by decide) (by decide) hf_components_field_subtype.2.1⟩
    · exact ⟨not_mem_keyline (by decide) (by decide) hf_components_field_type.1,
        not_mem_keyline (by decide) (by decide) hf_components_field_type.2.1⟩
    · exact ⟨not_mem_keyline (by decide) (by decide) hf_components_field_insid.1,
        not_mem_keyline (by decide) (by decide) hf_components_field_insid.2.1⟩
    · exact ⟨List.not_mem_nil _, List.not_mem_nil _⟩
  have hne2 : joinNl (envLinesAll c) ≠ [] := by
    simp only [envLinesAll]
    rw [joinNl]
    simp
  have hkeys : ∀ kv : Str × Str, some kv ∈ envPairsMain c → KeyOk kv.1 := by
    intro kv hkv
    simp only [envPairsMain, List.mem_cons, List.not_mem_nil, or_false,
      Option.some.injEq, reduceCtorEq, false_or] at hkv
    rcases hkv with rfl | rfl | rfl | rfl | rfl | rfl | rfl | rfl | rfl | rfl | rfl | rfl | rfl | rfl | rfl | rfl | rfl | rfl | rfl | rfl | rfl | rfl | rfl | rfl | rfl | rfl | rfl | rfl | rfl | rfl | rfl | rfl | rfl
    · exact (by decide : KeyOk kUSER_NAME)
    · exact (by decide : KeyOk kSP_TENANT_ID)
    · exact (by decide : KeyOk kSP_CLIENT_ID)
    · exact (by decide : KeyOk kSP_CLIENT_SECRET)
    · exact (by decide : KeyOk kSP_SITE_ID)
    · exact (by decide : KeyOk kSP_SITE_HOSTNAME)
    · exact (by decide : KeyOk kSP_SITE_PATH)
    · exact (by decide : KeyOk kSP_GRAPH_BASE)
    · exact (by decide : KeyOk kSP_GRAPH_SCOPE)
    · exact (by decide : KeyOk kSP_TIMEOUT_S)
    · exact (by decide : KeyOk kSP_EVENTS_LIST_ID)
    · exact (by decide : KeyOk kSP_EVENTS_LIST_NAME)
    · exact (by decide : KeyOk kSP_EVENTS_SNAPSHOT_THRESHOLD_KB)
    · exact (by decide : KeyOk kSP_EVENTS_FIELD_KIND)
    · exact (by decide : KeyOk kSP_EVENTS_FIELD_TS)
    · exact (by decide : KeyOk kSP_EVENTS_FIELD_ACTOR)
    · exact (by decide : KeyOk kSP_EVENTS_FIELD_VERSION)
    · exact (by decide : KeyOk kSP_EVENTS_FIELD_PAYLOAD)
    · exact (by decide : KeyOk kSP_EVENTS_FIELD_SNAPSHOT_FILE)
    · exact (by decide : KeyOk kSP_SNAPSHOTS_LIBRARY_ID)
    · exact (by decide : KeyOk kSP_SNAPSHOTS_LIBRARY_NAME)
    · exact (by decide : KeyOk kSP_FAILURES_LIST_ID)
    · exact (by decide : KeyOk kSP_FAILURES_LIST_NAME)
    · exact (by decide : KeyOk kSP_FAILURES_FIELD_COMPONENT)
    · exact (by decide : KeyOk kSP_FAILURES_FIELD_DATE)
    · exact (by decide : KeyOk kSP_FAILURES_FIELD_TYPE)
    · exact (by decide : KeyOk kSP_COMPONENTS_LIST_ID)
    · exact (by decide : KeyOk kSP_COMPONENTS_LIST_NAME)
    · exact (by decide : KeyOk kSP_COMPONENTS_FIELD_ID)
    · exact (by decide : KeyOk kSP_COMPONENTS_FIELD_NAME)
    · exact (by decide : KeyOk kSP_COMPONENTS_FIELD_SUBTYPE)
    · exact (by decide : KeyOk kSP_COMPONENTS_FIELD_TYPE)
    · exact (by decide : KeyOk kSP_COMPONENTS_FIELD_INSID)
  have hfold := foldl_parseEnvLine_binds (envPairsMain c) envEmpty hkeys
  unfold parseEnv toEnvFormat
  rw [rustLines_joinNl (envLinesAll c) hne2 (envLinesAll_getLast c) hlines]
  rw [envLinesAll_eq, List.dropLast_concat]
  exact hfold

theorem jdecode_jencode (e : SharePointConfig)
    (h1 : e.events_snapshot_threshold_kb ≤ 4294967295)
    (h2 : e.timeout_s ≤ 4294967295) : jdecode (jencode e) = some e := by
  have hj_user_name : jGetS (jencode e) ("user_name".data) = some e.user_name := rfl
  have hj_tenant_id : jGetS (jencode e) ("tenant_id".data) = some e.tenant_id := rfl
  have hj_client_id : jGetS (jencode e) ("client_id".data) = some e.client_id := rfl
  have hj_client_secret : jGetS (jencode e) ("client_secret".data) = some e.client_secret := rfl
  have hj_site_id : jGetS (jencode e) ("site_id".data) = some e.site_id := rfl
  have hj_site_hostname : jGetS (jencode e) ("site_hostname".data) = some e.site_hostname := rfl
  have hj_site_path : jGetS (jencode e) ("site_path".data) = some e.site_path := rfl
  have hj_events_list_id : jGetS (jencode e) ("events_list_id".data) = some e.events_list_id := rfl
  have hj_events_list_name : jGetS (jencode e) ("events_list_name".data) = some e.events_list_name := rfl
  have hj_events_field_kind : jGetS (jencode e) ("events_field_kind".data) = some e.events_field_kind := rfl
  have hj_events_field_ts : jGetS (jencode e) ("events_field_ts".data) = some e.events_field_ts := rfl
  have hj_events_field_actor : jGetS (jencode e) ("events_field_actor".data) = some e.events_field_actor := rfl
  have hj_events_field_version : jGetS (jencode e) ("events_field_version".data) = some e.events_field_version := rfl
  have hj_events_field_payload : jGetS (jencode e) ("events_field_payload".data) = some e.events_field_payload := rfl
  have hj_events_field_snapshot_file : jGetS (jencode e) ("events_field_snapshot_file".data) = some e.events_field_snapshot_file := rfl
  have hj_snapshots_library_id : jGetS (jencode e) ("snapshots_library_id".data) = some e.snapshots_library_id := rfl
  have hj_snapshots_library_name : jGetS (jencode e) ("snapshots_library_name".data) = some e.snapshots_library_name := rfl
  have hj_events_snapshot_threshold_kb : jGetN (jencode e) ("events_snapshot_threshold_kb".data) = some e.events_snapshot_threshold_kb := by
    rw [show jGetN (jencode e) ("events_snapshot_threshold_kb".data) =
      (if e.events_snapshot_threshold_kb ≤ 4294967295 then some e.events_snapshot_threshold_kb else none) from rfl, if_pos h1]
  have hj_failures_list_id : jGetS (jencode e) ("failures_list_id".data) = some e.failures_list_id := rfl
  have hj_failures_list_name : jGetS (jencode e) ("failures_list_name".data) = some e.failures_list_name := rfl
  have hj_failures_field_component : jGetS (jencode e) ("failures_field_component".data) = some e.failures_field_component := rfl
  have hj_failures_field_date : jGetS (jencode e) ("failures_field_date".data) = some e.failures_field_date := rfl
  have hj_failures_field_type : jGetS (jencode e) ("failures_field_type".data) = some e.failures_field_type := rfl
  have hj_components_list_id : jGetS (jencode e) ("components_list_id".data) = some e.components_list_id := rfl
  have hj_components_list_name : jGetS (jencode e) ("components_list_name".data) = some e.components_list_name := rfl
  have hj_components_field_id : jGetS (jencode e) ("components_field_id".data) = some e.components_field_id := rfl
  have hj_components_field_name : jGetS (jencode e) ("components_field_name".data) = some e.components_field_name := rfl
  have hj_components_field_subtype : jGetS (jencode e) ("components_field_subtype".data) = some e.components_field_subtype := rfl
  have hj_components_field_type : jGetS (jencode e) ("components_field_type".data) = some e.components_field_type := rfl
  have hj_components_field_insid : jGetS (jencode e) ("components_field_insid".data) = some e.components_field_insid := rfl
  have hj_graph_base : jGetS (jencode e) ("graph_base".data) = some e.graph_base := rfl
  have hj_graph_scope : jGetS (jencode e) ("graph_scope".data) = some e.graph_scope := rfl
  have hj_timeout_s : jGetN (jencode e) ("timeout_s".data) = some e.timeout_s := by
    rw [show jGetN (jencode e) ("timeout_s".data) =
      (if e.timeout_s ≤ 4294967295 then some e.timeout_s else none) from rfl, if_pos h2]
  simp only [jdecode, hj_user_name, hj_tenant_id, hj_client_id, hj_client_secret, hj_site_id, hj_site_hostname, hj_site_path, hj_events_list_id, hj_events_list_name, hj_events_field_kind, hj_events_field_ts, hj_events_field_actor, hj_events_field_version, hj_events_field_payload, hj_events_field_snapshot_file, hj_snapshots_library_id, hj_snapshots_library_name, hj_events_snapshot_threshold_kb, hj_failures_list_id, hj_failures_list_name, hj_failures_field_component, hj_failures_field_date, hj_failures_field_type, hj_components_list_id, hj_components_list_name, hj_components_field_id, hj_components_field_name, hj_components_field_subtype, hj_components_field_type, hj_components_field_insid, hj_graph_base, hj_graph_scope, hj_timeout_s]

/-- C1 (amended): for every entity (the two u32-range hypotheses are the
u32 typing of the numeric fields, which the Nat model widens), decoding the
encoded blob reproduces the entity exactly; and the mirror-text round trip
reproduces every non-empty field, provided each string field contains no
line break and is unchanged by the trimming and quote-stripping of the
mirror parser, and the numeric fields lie between 1 and 2^24 (so that the
f32 parse is exact). -/
theorem c1_roundtrip (e : SharePointConfig)
    (hth : e.events_snapshot_threshold_kb ≤ 4294967295)
    (hts : e.timeout_s ≤ 4294967295) :
    jdecode (jencode e) = some e ∧
    (CleanConfig e →
    (e.user_name ≠ [] → (configFromEnv (parseEnv (toEnvFormat e))).user_name = e.user_name) ∧
    (e.tenant_id ≠ [] → (configFromEnv (parseEnv (toEnvFormat e))).tenant_id = e.tenant_id) ∧
    (e.client_id ≠ [] → (configFromEnv (parseEnv (toEnvFormat e))).client_id = e.client_id) ∧
    (e.client_secret ≠ [] → (configFromEnv (parseEnv (toEnvFormat e))).client_secret = e.client_secret) ∧
    (e.site_id ≠ [] → (configFromEnv (parseEnv (toEnvFormat e))).site_id = e.site_id) ∧
    (e.site_hostname ≠ [] → (configFromEnv (parseEnv (toEnvFormat e))).site_hostname = e.site_hostname) ∧
    (e.site_path ≠ [] → (configFromEnv (parseEnv (toEnvFormat e))).site_path = e.site_path) ∧
    (e.graph_base ≠ [] → (configFromEnv (parseEnv (toEnvFormat e))).graph_base = e.graph_base) ∧
    (e.graph_scope ≠ [] → (configFromEnv (parseEnv (toEnvFormat e))).graph_scope = e.graph_scope) ∧
    (configFromEnv (parseEnv (toEnvFormat e))).timeout_s = e.timeout_s ∧
    (e.events_list_id ≠ [] → (configFromEnv (parseEnv (toEnvFormat e))).events_list_id = e.events_list_id) ∧
    (e.events_list_name ≠ [] → (configFromEnv (parseEnv (toEnvFormat e))).events_list_name = e.events_list_name) ∧
    (configFromEnv (parseEnv (toEnvFormat e))).events_snapshot_threshold_kb = e.events_snapshot_threshold_kb ∧
    (e.events_field_kind ≠ [] → (configFromEnv (parseEnv (toEnvFormat e))).events_field_kind = e.events_field_kind) ∧
    (e.events_field_ts ≠ [] → (configFromEnv (parseEnv (toEnvFormat e))).events_field_ts = e.events_field_ts) ∧
    (e.events_field_actor ≠ [] → (configFromEnv (parseEnv (toEnvFormat e))).events_field_actor = e.events_field_actor) ∧
    (e.events_field_version ≠ [] → (configFromEnv (parseEnv (toEnvFormat e))).events_field_version = e.events_field_version) ∧
    (e.events_field_payload ≠ [] → (configFromEnv (parseEnv (toEnvFormat e))).events_field_payload = e.events_field_payload) ∧
    (e.events_field_snapshot_file ≠ [] → (configFromEnv (parseEnv (toEnvFormat e))).events_field_snapshot_file = e.events_field_snapshot_file) ∧
    (e.snapshots_library_id ≠ [] → (configFromEnv (parseEnv (toEnvFormat e))).snapshots_library_id = e.snapshots_library_id) ∧
    (e.snapshots_library_name ≠ [] → (configFromEnv (parseEnv (toEnvFormat e))).snapshots_library_name = e.snapshots_library_name) ∧
    (e.failures_list_id ≠ [] → (configFromEnv (parseEnv (toEnvFormat e))).failures_list_id = e.failures_list_id) ∧
    (e.failures_list_name ≠ [] → (configFromEnv (parseEnv (toEnvFormat e))).failures_list_name = e.failures_list_name) ∧
    (e.failures_field_component ≠ [] → (configFromEnv (parseEnv (toEnvFormat e))).failures_field_component = e.failures_field_component) ∧
    (e.failures_field_date ≠ [] → (configFromEnv (parseEnv (toEnvFormat e))).failures_field_date = e.failures_field_date) ∧
    (e.failures_field_type ≠ [] → (configFromEnv (parseEnv (toEnvFormat e))).failures_field_type = e.failures_field_type) ∧
    (e.components_list_id ≠ [] → (configFromEnv (parseEnv (toEnvFormat e))).components_list_id = e.components_list_id) ∧
    (e.components_list_name ≠ [] → (configFromEnv (parseEnv (toEnvFormat e))).components_list_name = e.components_list_name) ∧
    (e.components_field_id ≠ [] → (configFromEnv (parseEnv (toEnvFormat e))).components_field_id = e.components_field_id) ∧
    (e.components_field_name ≠ [] → (configFromEnv (parseEnv (toEnvFormat e))).components_field_name = e.components_field_name) ∧
    (e.components_field_subtype ≠ [] → (configFromEnv (parseEnv (toEnvFormat e))).components_field_subtype = e.components_field_subtype) ∧
    (e.components_field_type ≠ [] → (configFromEnv (parseEnv (toEnvFormat e))).components_field_type = e.components_field_type) ∧
    (e.components_field_insid ≠ [] → (configFromEnv (parseEnv (toEnvFormat e))).components_field_insid = e.components_field_insid)) := by
  refine ⟨jdecode_jencode e hth hts, ?_⟩
  intro h
  have hparse := parseEnv_toEnvFormat e h
  obtain ⟨hf_user_name, hf_tenant_id, hf_client_id, hf_client_secret, hf_site_id, hf_site_hostname, hf_site_path, hf_events_list_id, hf_events_list_name, hf_events_field_kind, hf_events_field_ts, hf_events_field_actor, hf_events_field_version, hf_events_field_payload, hf_events_field_snapshot_file, hf_snapshots_library_id, hf_snapshots_library_name, hf_failures_list_id, hf_failures_list_name, hf_failures_field_component, hf_failures_field_date, hf_failures_field_type, hf_components_list_id, hf_components_list_name, hf_components_field_id, hf_components_field_name, hf_components_field_subtype, hf_components_field_type, hf_components_field_insid, hf_graph_base, hf_graph_scope, ht1, ht2, hk1, hk2⟩ := h
  refine ⟨?_, ?_, ?_, ?_, ?_, ?_, ?_, ?_, ?_, ?_, ?_, ?_, ?_, ?_, ?_, ?_, ?_, ?_, ?_, ?_, ?_, ?_, ?_, ?_, ?_, ?_, ?_, ?_, ?_, ?_, ?_, ?_, ?_⟩
  · intro hne
    rw [hparse]
    simp only [configFromEnv, getStrD, lookup_user_name e]
    rw [hf_user_name.2.2, if_neg hne]
  · intro hne
    rw [hparse]
    simp only [configFromEnv, getStrD, lookup_tenant_id e]
    rw [hf_tenant_id.2.2, if_neg hne]
  · intro hne
    rw [hparse]
    simp only [configFromEnv, getStrD, lookup_client_id e]
    rw [hf_client_id.2.2, if_neg hne]
  · intro hne
    rw [hparse]
    simp only [configFromEnv, getStrD, lookup_client_secret e]
    rw [hf_client_secret.2.2, if_neg hne]
  · intro hne
    rw [hparse]
    simp only [configFromEnv, getStrD, lookup_site_id e]
    rw [hf_site_id.2.2, if_neg hne]
  · intro hne
    rw [hparse]
    simp only [configFromEnv, getStrD, lookup_site_hostname e]
    rw [hf_site_hostname.2.2, if_neg hne]
  · intro hne
    rw [hparse]
    simp only [configFromEnv, getStrD, lookup_site_path e]
    rw [hf_site_path.2.2, if_neg hne]
  · intro hne
    rw [hparse]
    simp only [configFromEnv, getStrD, lookup_graph_base e]
    rw [hf_graph_base.2.2, if_neg hne]
  · intro hne
    rw [hparse]
    simp only [configFromEnv, getStrD, lookup_graph_scope e]
    rw [hf_graph_scope.2.2, if_neg hne]
  · rw [hparse]
    simp only [configFromEnv]
    exact getNumD_natRepr (applyBinds (envPairsMain e) envEmpty) kSP_TIMEOUT_S
      defaultConfig.timeout_s e.timeout_s
      (by rw [lookup_timeout_s e, cleanup_natRepr]) ht1 ht2
  · intro hne
    rw [hparse]
    simp only [configFromEnv, getStrD, lookup_events_list_id e]
    rw [hf_events_list_id.2.2, if_neg hne]
  · intro hne
    rw [hparse]
    simp only [configFromEnv, getStrD, lookup_events_list_name e]
    rw [hf_events_list_name.2.2, if_neg hne]
  · rw [hparse]
    simp only [configFromEnv]
    exact getNumD_natRepr (applyBinds (envPairsMain e) envEmpty) kSP_EVENTS_SNAPSHOT_THRESHOLD_KB
      defaultConfig.events_snapshot_threshold_kb e.events_snapshot_threshold_kb
      (by rw [lookup_events_snapshot_threshold_kb e, cleanup_natRepr]) hk1 hk2
  · intro hne
    rw [hparse]
    simp only [configFromEnv, getStrD, lookup_events_field_kind e]
    rw [hf_events_field_kind.2.2, if_neg hne]
  · intro hne
    rw [hparse]
    simp only [configFromEnv, getStrD, lookup_events_field_ts e]
    rw [hf_events_field_ts.2.2, if_neg hne]
  · intro hne
    rw [hparse]
    simp only [configFromEnv, getStrD, lookup_events_field_actor e]
    rw [hf_events_field_actor.2.2, if_neg hne]
  · intro hne
    rw [hparse]
    simp only [configFromEnv, getStrD, lookup_events_field_version e]
    rw [hf_events_field_version.2.2, if_neg hne]
  · intro hne
    rw [hparse]
    simp only [configFromEnv, getStrD, lookup_events_field_payload e]
    rw [hf_events_field_payload.2.2, if_neg hne]
  · intro hne
    rw [hparse]
    simp only [configFromEnv, getStrD, lookup_events_field_snapshot_file e]
    rw [hf_events_field_snapshot_file.2.2, if_neg hne]
  · intro hne
    rw [hparse]
    simp only [configFromEnv, getStrD, lookup_snapshots_library_id e]
    rw [hf_snapshots_library_id.2.2, if_neg hne]
  · intro hne
    rw [hparse]
    simp only [configFromEnv, getStrD, lookup_snapshots_library_name e]
    rw [hf_snapshots_library_name.2.2, if_neg hne]
  · intro hne
    rw [hparse]
    simp only [configFromEnv, getStrD, lookup_failures_list_id e]
    rw [hf_failures_list_id.2.2, if_neg hne]
  · intro hne
    rw [hparse]
    simp only [configFromEnv, getStrD, lookup_failures_list_name e]
    rw [hf_failures_list_name.2.2, if_neg hne]
  · intro hne
    rw [hparse]
    simp only [configFromEnv, getStrD, lookup_failures_field_component e]
    rw [hf_failures_field_component.2.2, if_neg hne]
  · intro hne
    rw [hparse]
    simp only [configFromEnv, getStrD, lookup_failures_field_date e]
    rw [hf_failures_field_date.2.2, if_neg hne]
  · intro hne
    rw [hparse]
    simp only [configFromEnv, getStrD, lookup_failures_field_type e]
    rw [hf_failures_field_type.2.2, if_neg hne]
  · intro hne
    rw [hparse]
    simp only [configFromEnv, getStrD, lookup_components_list_id e]
    rw [hf_components_list_id.2.2, if_neg hne]
  · intro hne
    rw [hparse]
    simp only [configFromEnv, getStrD, lookup_components_list_name e]
    rw [hf_components_list_name.2.2, if_neg hne]
  · intro hne
    rw [hparse]
    simp only [configFromEnv, getStrD, lookup_components_field_id e]
    rw [hf_components_field_id.2.2, if_neg hne]
  · intro hne
    rw [hparse]
    simp only [configFromEnv, getStrD, lookup_components_field_name e]
    rw [hf_components_field_name.2.2, if_neg hne]
  · intro hne
    rw [hparse]
    simp only [configFromEnv, getStrD, lookup_components_field_subtype e]
    rw [hf_components_field_subtype.2.2, if_neg hne]
  · intro hne
    rw [hparse]
    simp only [configFromEnv, getStrD, lookup_components_field_type e]
    rw [hf_components_field_type.2.2, if_neg hne]
  · intro hne
    rw [hparse]
    simp only [configFromEnv, getStrD, lookup_components_field_insid e]
    rw [hf_components_field_insid.2.2, if_neg hne]

theorem c1_roundtrip_witness :
    jdecode (jencode e0cfg) = some e0cfg ∧
    (configFromEnv (parseEnv (toEnvFormat e0cfg))).tenant_id = e0cfg.tenant_id :=
  ⟨(c1_roundtrip e0cfg (by decide) (by decide)).1,
   ((c1_roundtrip e0cfg (by decide) (by decide)).2
       (by refine ⟨?_, ?_, ?_, ?_, ?_, ?_, ?_, ?_, ?_, ?_, ?_, ?_, ?_, ?_, ?_, ?_, ?_, ?_, ?_, ?_, ?_, ?_, ?_, ?_, ?_, ?_, ?_, ?_, ?_, ?_, ?_, ?_, ?_, ?_, ?_⟩ <;> decide)).2.1 (by decide)⟩

/-- C1 (counterexample): a valid entity whose tenant id is surrounded by
double quotes survives the blob round trip but not the mirror round trip:
the quotes are stripped by the mirror parser, so a non-empty field is not
reproduced. -/
theorem c1_counterexample :
    (ce1cfg.tenant_id ≠ [] ∧ ce1cfg.client_id ≠ [] ∧ ce1cfg.client_secret ≠ []) ∧
    jdecode (jencode ce1cfg) = some ce1cfg ∧
    (configFromEnv (parseEnv (toEnvFormat ce1cfg))).tenant_id ≠ ce1cfg.tenant_id := by
  exact ⟨by decide, by decide, by decide⟩

theorem parseEnvLine_eq_claimAmended (m : EnvMap) (raw : Str) :
    parseEnvLine m raw = claimParseLineAmended m raw := by
  simp only [parseEnvLine, claimParseLineAmended]
  by_cases h1 : trimWs raw = []
  · rw [if_pos h1, if_pos h1]
  · rw [if_neg h1, if_neg h1]
    by_cases h2 : (trimWs raw).headI = '#'
    · rw [if_pos h2, if_pos h2]
    · rw [if_neg h2, if_neg h2]
      by_cases h3 : trimWs (splitFirstAt '=' (trimWs raw)).1 = []
      · rw [if_pos h3, if_pos h3]
      · rw [if_neg h3, if_neg h3]
        cases hsp : (splitFirstAt '=' (trimWs raw)).2 with
        | none =>
          simp only [hsp]
          rfl
        | some v => simp only [hsp]

theorem getStrD_congr {m m2 : EnvMap} (k d : Str) (h : m k = m2 k) :
    getStrD m k d = getStrD m2 k d := by
  unfold getStrD
  rw [h]

theorem getNumD_congr {m m2 : EnvMap} (k : Str) (d : Nat) (h : m k = m2 k) :
    getNumD m k d = getNumD m2 k d := by
  unfold getNumD
  rw [h]

theorem configFromEnv_congr (m m2 : EnvMap) (h : ∀ k ∈ knownKeys, m k = m2 k) :
    configFromEnv m = configFromEnv m2 := by
  simp only [configFromEnv]
  congr 1 <;> first
    | exact getStrD_congr _ _ (h _ (by decide))
    | exact getNumD_congr _ _ (h _ (by decide))

/-- C6 (amended): line handling of the mirror parser.  Empty-after-trim and
comment lines are ignored and every other line splits at its first equals
sign with trimmed key and trimmed, quote-stripped value, as the claim states,
with two amendments: a line with no equals sign and a non-empty key binds the
key to the empty value (overwriting any earlier binding of that key) rather
than being ignored, and quote stripping removes all leading and trailing
double quotes and then all leading and trailing single quotes, matched or
not, rather than one matching pair.  Unknown keys never affect the entity,
and a known key overwrites its field only when its parsed value is
non-empty. -/
theorem c6_line_processing :
    parseEnvLine = claimParseLineAmended ∧
    (∀ s, parseEnv s = (rustLines s).foldl claimParseLineAmended envEmpty) ∧
    (∀ m k v, k ∉ knownKeys → configFromEnv (envInsert k v m) = configFromEnv m) ∧
    (∀ (m : EnvMap) k d, (m k = none → getStrD m k d = d) ∧
      (m k = some [] → getStrD m k d = d) ∧
      (∀ v, m k = some v → v ≠ [] → getStrD m k d = v)) := by
  have hpt : parseEnvLine = claimParseLineAmended :=
    funext fun m => funext fun raw => parseEnvLine_eq_claimAmended m raw
  refine ⟨hpt, ?_, ?_, ?_⟩
  · intro s
    unfold parseEnv
    rw [hpt]
  · intro m k v hk
    refine configFromEnv_congr _ _ (fun kk hkk => ?_)
    have hne : kk ≠ k := fun he => hk (he ▸ hkk)
    simp [envInsert, hne]
  · intro m k d
    refine ⟨?_, ?_, ?_⟩
    · intro h
      simp [getStrD, h]
    · intro h
      simp [getStrD, h]
    · intro v h hv
      simp [getStrD, h, hv]

theorem c6_line_processing_witness :
    configFromEnv (envInsert ("UNKNOWN_KEY".data) ['x'] envEmpty) = configFromEnv envEmpty :=
  c6_line_processing.2.2.1 envEmpty ("UNKNOWN_KEY".data) ['x'] (by decide)

/-- C6 (counterexample): the line SP_SITE_ID=""x"" is parsed by the code to
the value x (all surrounding quotes stripped), not "x" as one-matching-pair
stripping would give; and a bare SP_SITE_ID line after SP_SITE_ID=x rebinds
the key to the empty value, so the entity keeps the default, while parsing
that ignores lines with no equals sign would retain x. -/
theorem c6_counterexample :
    (parseEnvLine envEmpty qline) kSP_SITE_ID = some ['x'] ∧
    (claimParseLineOrig envEmpty qline) kSP_SITE_ID = some [dqChar, 'x', dqChar] ∧
    (configFromEnv (parseEnv noEqText)).site_id = [] ∧
    (configFromEnv ((rustLines noEqText).foldl claimParseLineOrig envEmpty)).site_id =
      ['x'] := by
  exact ⟨by decide, by decide, by decide, by decide⟩
